import Mathlib

/-!
# The exchange front-end (`app/client/js/ether.js`)

A shallow embedding of the page logic of `ether.js`: the order-book table, the
balance displays, the transaction modal and the two event listeners.

Conventions of the embedding.

* Addresses, symbols, transaction hashes and markup are `String`s.
* Amounts are the `uint256` values the contracts return, as `ℕ`.  web3 hands
  them over as BigNumber objects; the script uses two conversions on them,
  which are JavaScript / library behaviour and are taken as a parameter
  (`Runtime`): the string written for an amount as received, and the string
  written for a JavaScript Number.  A Number is the rational value of an IEEE 754
  double: the conversion of an amount to a Number and the division by `10**18`
  round to the nearest double (`toNumber`, `divideNumbers`).
* A `tr` element of the order book is kept as its `id` attribute and the texts
  of its `td` cells, as the markup built by `appendOrder` writes them
  (`Row.markup`).
* web3 callbacks are run at the point of the call, with the answers of the
  chain given by a `Chain` value; every call issued is recorded in
  `Window.calls`.  Console output is not modelled.
-/

namespace EtherJs

/-! ## JavaScript conversions -/

/-- The two conversions to text that the script relies on. -/
structure Runtime where
  /-- The text JavaScript writes for an amount as received from web3 (a BigNumber),
  in `'' + amount`. -/
  bigNumberToString : ℕ → String
  /-- The text JavaScript writes for a Number. The argument is the value of the
  Number, such as the result of a division, or an amount on which the script calls
  `toNumber()` only to write it: the text is then that of the double nearest to
  the amount. -/
  numberToString : ℚ → String

/-- A concrete runtime for evaluating the definitions: whole numbers are written in
decimal, as JavaScript writes them below `10^21`; a quotient that is not whole is
written `numerator/denominator` (the shortest decimal of a double is not
modelled). -/
def sampleRuntime : Runtime where
  bigNumberToString := fun n => Nat.repr n
  numberToString := fun q =>
    if q.den = 1 then Nat.repr q.num.toNat
    else Nat.repr q.num.toNat ++ "/" ++ Nat.repr q.den

/-! ## JavaScript numbers

A Number is an IEEE 754 double, kept here as the rational it stands for. The amounts
of the page are whole numbers below `2^256` and the one divisor is `10^18`, so every
Number met is zero or in the normal range of doubles; the limits of the exponent
(subnormal values, overflow to infinity) are not modelled. -/

/-- The whole number nearest to `a / b`, the even one when two are equally near: the
rounding of IEEE 754 arithmetic in its default mode. -/
def roundHalfEven (a b : ℕ) : ℕ :=
  let q := a / b
  let r := a % b
  if 2 * r < b then q
  else if b < 2 * r then q + 1
  else if q % 2 = 0 then q
  else q + 1

/-- `amount.toNumber()`, and the conversion of an amount to a Number by an arithmetic
operator: the double nearest to the whole number `n`. Below `2^53` that is `n`
itself; from there on, with `2^e ≤ n < 2^(e+1)`, it is the nearest multiple of
`2^(e-52)`. -/
def toNumber (n : ℕ) : ℕ :=
  if n < 2 ^ 53 then n
  else
    let e := Nat.log2 n - 52
    roundHalfEven n (2 ^ e) * 2 ^ e

/-- The binary exponent of `x / y` for whole numbers `x` and `y` other than zero: the
`e` with `2^e ≤ x / y < 2^(e+1)`. -/
def binaryExponent (x y : ℕ) : ℤ :=
  let t : ℤ := (Nat.log2 x : ℤ) - (Nat.log2 y : ℤ)
  if y * 2 ^ t.toNat ≤ x * 2 ^ (-t).toNat then t else t - 1

/-- `x / y` for two Numbers that hold the whole numbers `x` and `y`, `y` not zero: the
double nearest to the exact quotient, which is the nearest multiple of `2^(e-52)`
where `e` is the binary exponent of the quotient. -/
def divideNumbers (x y : ℕ) : ℚ :=
  let e : ℤ := binaryExponent x y - 52
  (roundHalfEven (x * 2 ^ (-e).toNat) (y * 2 ^ e.toNat) : ℚ) * 2 ^ e

/-! ## Constants of the page -/

/-- `const tokenAddress`. -/
def tokenAddress : String := "0x87dec673238cd9fe9bc1479c21f9f8165bc3879b"

/-- The address standing for ether in `window.approvedTokens`. -/
def etherAddress : String := "0x0000000000000000000000000000000000000000"

/-- `window.tokenAddressToSymbol[address]`: `none` is JavaScript's `undefined`. -/
def tokenAddressToSymbol (address : String) : Option String :=
  if address = "0x0000000000000000000000000000000000000000" then some "ETH"
  else if address = "0x87dec673238cd9fe9bc1479c21f9f8165bc3879b" then some "BLG"
  else none

/-- String conversion of a looked-up property in a concatenation: `undefined`
is written `undefined`. -/
def propertyToString : Option String → String
  | some s => s
  | none => "undefined"

/-! ## The page -/

/-- A `tr` element of the order book: its `id` attribute and the texts of its cells. -/
structure Row where
  id : String
  cells : List String
deriving DecidableEq, Repr

/-- The markup of a row as `appendOrder` writes it. -/
def Row.markup (r : Row) : String :=
  "<tr id=" ++ r.id ++ " ><td>" ++ "</td><td>".intercalate r.cells ++ "</td><</tr>"

/-- A call issued to the chain through web3. -/
inductive Call where
  | getBalance (user : String)
  | balanceOf (user : String)
  | symbol
  | getOrderBookIds
  | orderBook_ (id : String)
deriving DecidableEq, Repr

/-- The state of the browser window that the script reads and writes. -/
structure Window where
  /-- `window.defaultAccount`. -/
  defaultAccount : String
  /-- The rows of `#orderBook`, in document order. -/
  orderBook : List Row
  /-- The text of `#etherBalance`. -/
  etherBalance : String
  /-- The text of `#blgBalance`. -/
  blgBalance : String
  /-- The fragments of markup inside `#txHash`, in order. -/
  txHash : List String
  /-- Whether `#successModal` is shown. -/
  successModal : Bool
  /-- The messages of the `alert` boxes raised, oldest first. -/
  alerts : List String
  /-- The web3 calls issued, oldest first. -/
  calls : List Call
deriving DecidableEq, Repr

/-- An order as `exchange.orderBook_` returns it: `order[0]` to `order[5]`. -/
structure Order where
  maker : String
  offerToken : String
  offerAmount : ℕ
  wantToken : String
  wantAmount : ℕ
  filled : Bool
deriving DecidableEq, Repr

/-- The answers of the chain to the calls of the script. -/
structure Chain where
  /-- `web3.eth.getBalance(user, cb)`: the balance in wei, or `none` when the callback
  is given an error. -/
  getBalance : String → Option ℕ
  /-- `token.balanceOf(user, cb)`: the balance, or `none` when the call fails (the
  callback's `balance` is then `undefined`). -/
  balanceOf : String → Option ℕ
  /-- `token.symbol(cb)`: the symbol, or `none` when the call fails (the callback's
  `symbol` is then `undefined`). -/
  symbol : Option String
  /-- `exchange.getOrderBookIds.call(cb)`. -/
  getOrderBookIds : List String
  /-- `exchange.orderBook_.call(id, cb)`. -/
  orderBook_ : String → Order

/-! ## `appendOrder` -/

/-- The row id: `offerToken + offerAmount + wantToken + wantAmount`, the four values
already converted to strings. -/
def rowId (offerToken offerAmount wantToken wantAmount : String) : String :=
  offerToken ++ offerAmount ++ wantToken ++ wantAmount

/-- The pair `(offerAmountAdjusted, wantAmountAdjusted)` of `appendOrder`, as the
texts written into the cells. In `offerAmount / 10**18` the amount is first
converted to a Number and `10**18` is the double `10^18`. -/
def adjustedAmounts (rt : Runtime) (offerSymbol wantSymbol : Option String)
    (offerAmount wantAmount : ℕ) : String × String :=
  if offerSymbol = some "ETH" then
    (rt.numberToString (divideNumbers (toNumber offerAmount) (10 ^ 18)),
      rt.bigNumberToString wantAmount)
  else if wantSymbol = some "ETH" then
    (rt.bigNumberToString offerAmount,
      rt.numberToString (divideNumbers (toNumber wantAmount) (10 ^ 18)))
  else
    (rt.bigNumberToString offerAmount, rt.bigNumberToString wantAmount)

/-- The string `appendOrder` passes to `$('#orderBook').append`. -/
def orderMarkup (rt : Runtime) (maker offerToken : String) (offerAmount : ℕ)
    (wantToken : String) (wantAmount : ℕ) : String :=
  let offerSymbol := tokenAddressToSymbol offerToken
  let wantSymbol := tokenAddressToSymbol wantToken
  let adjusted := adjustedAmounts rt offerSymbol wantSymbol offerAmount wantAmount
  "<tr id="
    ++ offerToken ++ rt.bigNumberToString offerAmount ++ wantToken
    ++ rt.bigNumberToString wantAmount
    ++ " ><td>"
    ++ propertyToString offerSymbol ++ "</td><td>"
    ++ adjusted.1 ++ "</td><td>"
    ++ propertyToString wantSymbol ++ "</td><td>"
    ++ adjusted.2 ++ "</td><td>"
    ++ maker
    ++ "</td><</tr>"

/-- The element that markup stands for: the id and the five cells. -/
def orderRow (rt : Runtime) (maker offerToken : String) (offerAmount : ℕ)
    (wantToken : String) (wantAmount : ℕ) : Row :=
  let offerSymbol := tokenAddressToSymbol offerToken
  let wantSymbol := tokenAddressToSymbol wantToken
  let adjusted := adjustedAmounts rt offerSymbol wantSymbol offerAmount wantAmount
  { id := rowId offerToken (rt.bigNumberToString offerAmount) wantToken
            (rt.bigNumberToString wantAmount)
    cells := [propertyToString offerSymbol, adjusted.1, propertyToString wantSymbol,
              adjusted.2, maker] }

/-- `appendOrder(maker, offerToken, offerAmount, wantToken, wantAmount)`: the row is
appended as the last child of `#orderBook`. -/
def appendOrder (rt : Runtime) (maker offerToken : String) (offerAmount : ℕ)
    (wantToken : String) (wantAmount : ℕ) (w : Window) : Window :=
  { w with orderBook := w.orderBook ++ [orderRow rt maker offerToken offerAmount wantToken wantAmount] }

/-! ## Well-formed values -/

/-- A hexadecimal digit. -/
def isHexDigit (c : Char) : Bool :=
  c.isDigit || ('a' ≤ c && c ≤ 'f') || ('A' ≤ c && c ≤ 'F')

/-- A token address as web3 writes it: `0x` followed by 40 hexadecimal digits. -/
def isAddress (s : String) : Bool :=
  match s.data with
  | '0' :: 'x' :: hex => hex.length == 40 && hex.all isHexDigit
  | _ => false

/-- An amount written in decimal digits. -/
def isDecimal (s : String) : Bool :=
  s.data.all Char.isDigit

/-! ## The transaction modal -/

/-- `openTransactionSuccessModal(msg, tx)`: `#txHash` is emptied, three fragments are
appended to it and `#successModal` is shown. -/
def openTransactionSuccessModal (msg tx : String) (w : Window) : Window :=
  let href := "https://kovan.etherscan.io/tx/" ++ tx
  let w := { w with txHash := [] }
  let w := { w with txHash := w.txHash ++ ["<p>" ++ msg ++ "</p>"] }
  let w := { w with txHash := w.txHash ++ ["</br><p>Here is your transaction hash:</p>"] }
  let w := { w with txHash := w.txHash ++ ["<a href=" ++ href ++ ">" ++ tx ++ "</a>"] }
  { w with successModal := true }

/-! ## Balances -/

/-- `updateETHBalance(user)`: on an error the callback only writes to the console;
otherwise the text of `#etherBalance` is `balance.toNumber() / 10**18 + ' ETH'`,
where `10**18` is the double `10^18`. -/
def updateETHBalance (rt : Runtime) (chain : Chain) (user : String) (w : Window) : Window :=
  let w := { w with calls := w.calls ++ [Call.getBalance user] }
  match chain.getBalance user with
  | none => w
  | some balance =>
    { w with etherBalance :=
        rt.numberToString (divideNumbers (toNumber balance) (10 ^ 18)) ++ " ETH" }

/-- `updateTokenBalance(user)`: the callback of `balanceOf` calls `symbol`, whose
callback sets the text of `#blgBalance` to `balance.toNumber() + ' ' + symbol`.
With `balance` undefined, `balance.toNumber()` throws and the text is not set.
Nothing is computed from the Number, so the balance is handed to `numberToString`
as it is. -/
def updateTokenBalance (rt : Runtime) (chain : Chain) (user : String) (w : Window) : Window :=
  let w := { w with calls := w.calls ++ [Call.balanceOf user] }
  let w := { w with calls := w.calls ++ [Call.symbol] }
  match chain.balanceOf user with
  | none => w
  | some balance =>
    { w with blgBalance :=
        rt.numberToString (balance : ℚ) ++ " " ++ propertyToString chain.symbol }

/-! ## `loadOrderBook` -/

/-- The callback of `exchange.orderBook_.call(ids[i], ...)`: the order is appended
when `order[5]`, the filled flag, is false. -/
def loadOrder (rt : Runtime) (chain : Chain) (w : Window) (id : String) : Window :=
  let w := { w with calls := w.calls ++ [Call.orderBook_ id] }
  let order := chain.orderBook_ id
  if !order.filled then
    appendOrder rt order.maker order.offerToken order.offerAmount order.wantToken
      order.wantAmount w
  else w

/-- `loadOrderBook()`: the loop over the ids returned by `getOrderBookIds`, the
callbacks run in the order of the ids. -/
def loadOrderBook (rt : Runtime) (chain : Chain) (w : Window) : Window :=
  let w := { w with calls := w.calls ++ [Call.getOrderBookIds] }
  chain.getOrderBookIds.foldl (loadOrder rt chain) w

/-! ## Events and listeners -/

/-- The arguments of an event that the listeners read (`res.args`). -/
structure Args where
  maker : String
  offerToken : String
  offerAmount : ℕ
  wantToken : String
  wantAmount : ℕ
  errorString : String
  /-- The argument `to` of `LogTokensMinted`. -/
  to_ : String
deriving DecidableEq, Repr

/-- An event as web3 passes it to a `watch` callback (`res`). -/
structure Log where
  event : String
  args : Args
  transactionHash : String
deriving DecidableEq, Repr

/-- The selector built on `logOrderExecuted`:
`'#' + res.args.offerToken + res.args.offerAmount + res.args.wantToken + res.args.wantAmount`. -/
def executedSelector (rt : Runtime) (args : Args) : String :=
  "#" ++ args.offerToken ++ rt.bigNumberToString args.offerAmount ++ args.wantToken
    ++ rt.bigNumberToString args.wantAmount

/-- An id that jQuery looks up directly: one or more letters, digits, `_` or `-`. -/
def isPlainId (id : List Char) : Bool :=
  !id.isEmpty && id.all (fun c => c.isAlphanum || c == '_' || c == '-')

/-- `$(selector).remove()`. For `#` followed by a plain id jQuery calls
`document.getElementById`, which gives the first element of the document with that
id: that element alone is removed, and the rows of the order book are the only
elements with ids of this kind. Any other selector is read as a CSS selector. The
other characters that the page can put into one are the `.` and the `+` of an amount
written in exponent notation, as in `1e+21`: the selector then asks for an element
of a class, or for an element named by what follows the `+` next to the element with
the id before it, and no element of the page is either. Nothing is removed. -/
def jqueryRemove (selector : String) (w : Window) : Window :=
  match selector.data with
  | '#' :: id =>
    if isPlainId id then
      { w with orderBook := w.orderBook.eraseP (fun r => r.id.data = id) }
    else w
  | _ => w

/-- The callback of `exchange.allEvents(...).watch` in `initExchangeListeners`, on an
event `res`. -/
def exchangeListener (rt : Runtime) (chain : Chain) (res : Log) (w : Window) : Window :=
  if res.event = "logOrderSubmitted" then
    let w := updateETHBalance rt chain w.defaultAccount w
    let w := appendOrder rt res.args.maker res.args.offerToken res.args.offerAmount
      res.args.wantToken res.args.wantAmount w
    openTransactionSuccessModal "Order Submitted." res.transactionHash w
  else if res.event = "logOrderExecuted" then
    let w := openTransactionSuccessModal "Order Executed." res.transactionHash w
    let w := updateETHBalance rt chain w.defaultAccount w
    let w := updateTokenBalance rt chain w.defaultAccount w
    let id := executedSelector rt res.args
    jqueryRemove id w
  else if res.event = "LogErrorString" then
    let w := updateETHBalance rt chain w.defaultAccount w
    { w with alerts := w.alerts ++ ["Error! \n" ++ res.args.errorString] }
  else w

/-- The callback of `token.LogTokensMinted(...).watch` in `initTokenListeners`:
`err` is `none` when the event is received without error. -/
def tokensMintedListener (rt : Runtime) (chain : Chain) (err : Option String) (res : Log)
    (w : Window) : Window :=
  match err with
  | some _ => w
  | none =>
    let w := openTransactionSuccessModal "Tokens minted." res.transactionHash w
    if res.args.to_ = w.defaultAccount then
      let w := updateETHBalance rt chain w.defaultAccount w
      updateTokenBalance rt chain w.defaultAccount w
    else w

/-- The callback of `token.LogErrorString(...).watch` in `initTokenListeners`. -/
def tokenErrorListener (rt : Runtime) (chain : Chain) (err : Option String) (res : Log)
    (w : Window) : Window :=
  match err with
  | some _ => w
  | none =>
    let w := updateETHBalance rt chain w.defaultAccount w
    { w with alerts := w.alerts ++ ["Error! \n" ++ res.args.errorString] }

/-! ## The embedded ABIs -/

/-- An input or output of an ABI entry: its `name`, its `type` and, for an input of
an event, its `indexed` flag. -/
structure AbiParam where
  name : String
  type : String
  indexed : Option Bool
deriving DecidableEq, Repr

/-- An entry of an ABI. A key that the entry does not have is `none`, or the empty
list for `inputs` and `outputs`. -/
structure AbiEntry where
  type : String
  name : Option String
  constant : Option Bool
  payable : Option Bool
  inputs : List AbiParam
  outputs : List AbiParam
  anonymous : Option Bool
deriving DecidableEq, Repr

/-- An input or output `{ "name": ..., "type": ... }`. -/
def param (name type : String) : AbiParam :=
  { name := name, type := type, indexed := none }

/-- An input of an event `{ "indexed": ..., "name": ..., "type": ... }`. -/
def eventInput (indexed : Bool) (name type : String) : AbiParam :=
  { name := name, type := type, indexed := some indexed }

/-- An entry `{ "constant", "inputs", "name", "outputs", "payable", "type": "function" }`. -/
def abiFunction (name : String) (constant payable : Bool) (inputs outputs : List AbiParam) :
    AbiEntry :=
  { type := "function", name := some name, constant := some constant,
    payable := some payable, inputs := inputs, outputs := outputs, anonymous := none }

/-- An entry `{ "anonymous": false, "inputs", "name", "type": "event" }`. -/
def abiEvent (name : String) (inputs : List AbiParam) : AbiEntry :=
  { type := "event", name := some name, constant := none, payable := none,
    inputs := inputs, outputs := [], anonymous := some false }

/-- An entry `{ "payable", "type": "fallback" }`. -/
def abiFallback (payable : Bool) : AbiEntry :=
  { type := "fallback", name := none, constant := none, payable := some payable,
    inputs := [], outputs := [], anonymous := none }

/-- An entry `{ "inputs", "payable", "type": "constructor" }`. -/
def abiConstructor (payable : Bool) (inputs : List AbiParam) : AbiEntry :=
  { type := "constructor", name := none, constant := none, payable := some payable,
    inputs := inputs, outputs := [], anonymous := none }

/-- `exchangeJSON.abi`. -/
def exchangeAbi : List AbiEntry :=
  [ abiFunction "getOrderBookIds" true false
      []
      [param "" "bytes32[]"],
    abiFunction "orderIds_" true false
      [param "" "uint256"]
      [param "" "bytes32"],
    abiFunction "orderBook_" true false
      [param "" "bytes32"]
      [param "maker" "address",
       param "offerToken" "address",
       param "offerAmount" "uint256",
       param "wantToken" "address",
       param "wantAmount" "uint256",
       param "filled" "bool"],
    abiFunction "submitOrder" false true
      [param "_offerToken" "address",
       param "_offerAmount" "uint256",
       param "_wantToken" "address",
       param "_wantAmount" "uint256"]
      [param "" "bool"],
    abiFallback true,
    abiEvent "logOrderSubmitted"
      [eventInput false "maker" "address",
       eventInput false "offerToken" "address",
       eventInput false "offerAmount" "uint256",
       eventInput false "wantToken" "address",
       eventInput false "wantAmount" "uint256"],
    abiEvent "logOrderExecuted"
      [eventInput false "maker" "address",
       eventInput false "taker" "address",
       eventInput false "offerToken" "address",
       eventInput false "offerAmount" "uint256",
       eventInput false "wantToken" "address",
       eventInput false "wantAmount" "uint256"],
    abiEvent "LogErrorString"
      [eventInput false "errorString" "string"] ]

/-- `tokenJSON.abi`. -/
def tokenAbi : List AbiEntry :=
  [ abiFunction "name" true false
      []
      [param "" "string"],
    abiFunction "approve" false false
      [param "_spender" "address", param "_amount" "uint256"]
      [param "" "bool"],
    abiFunction "totalSupply" true false
      []
      [param "" "uint256"],
    abiFunction "transferFrom" false false
      [param "_from" "address",
       param "_to" "address",
       param "_amount" "uint256"]
      [param "" "bool"],
    abiFunction "allowed_" true false
      [param "" "address", param "" "address"]
      [param "" "uint256"],
    abiFunction "decimals" true false
      []
      [param "" "uint256"],
    abiFunction "setHub" false false
      [param "_hub" "address"]
      [param "" "bool"],
    abiFunction "totalSupply_" true false
      []
      [param "" "uint256"],
    abiFunction "mint" false false
      [param "_to" "address", param "_value" "uint256"]
      [param "" "bool"],
    abiFunction "balances_" true false
      [param "" "address"]
      [param "" "uint256"],
    abiFunction "balanceOf" true false
      [param "_owner" "address"]
      [param "" "uint256"],
    abiFunction "hub_" true false
      []
      [param "" "address"],
    abiFunction "symbol" true false
      []
      [param "" "string"],
    abiFunction "transfer" false false
      [param "_to" "address", param "_value" "uint256"]
      [param "" "bool"],
    abiFunction "allowance" true false
      [param "_owner" "address", param "_spender" "address"]
      [param "remaining" "uint256"],
    abiFunction "owner_" true false
      []
      [param "" "address"],
    abiConstructor false [],
    abiEvent "LogTokensMinted"
      [eventInput true "_to" "address",
       eventInput false "to" "address",
       eventInput false "value" "uint256",
       eventInput false "totalSupply" "uint256"],
    abiEvent "LogErrorString"
      [eventInput false "errorString" "string"],
    abiEvent "Transfer"
      [eventInput true "_from" "address",
       eventInput true "_to" "address",
       eventInput false "_value" "uint256"],
    abiEvent "Approval"
      [eventInput true "_owner" "address",
       eventInput true "_spender" "address",
       eventInput false "_value" "uint256"] ]

/-- `hubJSON.abi`. -/
def hubAbi : List AbiEntry :=
  [ abiFunction "users_" true false
      [param "" "uint256"]
      [param "" "address"],
    abiFunction "resourceIds_" true false
      [param "" "uint256"]
      [param "" "bytes32"],
    abiFunction "userData_" true false
      [param "" "address"]
      [param "userName_" "string",
       param "position_" "string",
       param "location_" "string",
       param "state_" "uint8"],
    abiFunction "resources_" true false
      [param "" "bytes32"]
      [param "url_" "string",
       param "user_" "address",
       param "reputation_" "uint256",
       param "addedAt_" "uint256",
       param "state_" "uint8"],
    abiFunction "addResource" false false
      [param "_resourceUrl" "string"]
      [param "" "bool"],
    abiFunction "addUser" false false
      [param "_userEOA" "address",
       param "_userName" "string",
       param "_position" "string",
       param "_location" "string"]
      [param "" "bool"],
    abiFunction "token_" true false
      []
      [param "" "address"],
    abiFunction "getAllUsers" true false
      []
      [param "" "address[]"],
    abiFunction "owner_" true false
      []
      [param "" "address"],
    abiConstructor false [param "_token" "address"],
    abiEvent "LogResourceAdded"
      [eventInput false "user" "address",
       eventInput false "resourceUrl" "string",
       eventInput false "blockNumber" "uint256"],
    abiEvent "LogUserAdded"
      [eventInput false "user" "address"],
    abiEvent "LogErrorString"
      [eventInput false "errorString" "string"] ]

/-- The entries of an ABI with the given `type` and `name`. -/
def abiLookup (abi : List AbiEntry) (type name : String) : List AbiEntry :=
  abi.filter (fun e => e.type = type ∧ e.name = some name)

/-- The types of the inputs of an entry, in order. -/
def AbiEntry.inputTypes (e : AbiEntry) : List String :=
  e.inputs.map AbiParam.type

/-- The names of the inputs of an entry, in order. -/
def AbiEntry.inputNames (e : AbiEntry) : List String :=
  e.inputs.map AbiParam.name

/-- The names of the outputs of an entry, in order. -/
def AbiEntry.outputNames (e : AbiEntry) : List String :=
  e.outputs.map AbiParam.name

/-- The types of the outputs of an entry, in order. -/
def AbiEntry.outputTypes (e : AbiEntry) : List String :=
  e.outputs.map AbiParam.type

/-- The ABI declares exactly one function `name`, and its inputs have these types. -/
def declaresFunction (abi : List AbiEntry) (name : String) (inputTypes : List String) : Bool :=
  (abiLookup abi "function" name).map AbiEntry.inputTypes == [inputTypes]

/-- The ABI declares exactly one event `name`, and each of `args` is the name of one
of its inputs. -/
def declaresEvent (abi : List AbiEntry) (name : String) (args : List String) : Bool :=
  match abiLookup abi "event" name with
  | [e] => args.all (fun a => e.inputNames.contains a)
  | _ => false

/-- The functions of an ABI that are not constant: the entries of type `function`
with `"constant": false`. -/
def nonConstantFunctions (abi : List AbiEntry) : List AbiEntry :=
  abi.filter (fun e => e.type = "function" ∧ e.constant = some false)

/-- The names of the entries of a given type, in order. -/
def entryNames (abi : List AbiEntry) (type : String) : List (Option String) :=
  (abi.filter (fun e => e.type = type)).map AbiEntry.name

/-! ## `loadWeb3` -/

/-- `const exchangeAddress`. -/
def exchangeAddress : String := "0xd9206f77dd8e6557744feb30a12e68d8a09bb043"

/-- `const hubAddress`. -/
def hubAddress : String := "0x21808e0d63d2fd3c5579a4425d3e9314ae47c6b9"

/-- A contract instance `web3.eth.contract(abi).at(address)`. -/
structure Contract where
  abi : List AbiEntry
  address : String
deriving DecidableEq, Repr

/-- A `watch` callback installed on a contract. -/
inductive Watcher where
  /-- The callback of `token.LogTokensMinted(...)`: `tokensMintedListener`. -/
  | tokenLogTokensMinted
  /-- The callback of `token.LogErrorString(...)`: `tokenErrorListener`. -/
  | tokenLogErrorString
  /-- The callback of `exchange.allEvents(...)`: `exchangeListener`. -/
  | exchangeAllEvents
deriving DecidableEq, Repr

/-- The injected provider as `loadWeb3` reads it. -/
structure Provider where
  /-- `web3.isConnected()`. -/
  isConnected : Bool
  /-- `web3.eth.accounts`. -/
  accounts : List String

/-- The window together with the globals that `loadWeb3` sets. -/
structure Session where
  window : Window
  /-- `window.token`, `none` while not set. -/
  token : Option Contract
  /-- `window.hub`, `none` while not set. -/
  hub : Option Contract
  /-- `window.exchange`, `none` while not set. -/
  exchange : Option Contract
  /-- The `watch` callbacks installed, oldest first. -/
  watchers : List Watcher
deriving DecidableEq, Repr

/-- `initTokenListeners()`: the two `watch` calls on the token. -/
def initTokenListeners (s : Session) : Session :=
  let s := { s with watchers := s.watchers ++ [Watcher.tokenLogTokensMinted] }
  { s with watchers := s.watchers ++ [Watcher.tokenLogErrorString] }

/-- `initExchangeListeners()`: the `watch` call on all events of the exchange. -/
def initExchangeListeners (s : Session) : Session :=
  { s with watchers := s.watchers ++ [Watcher.exchangeAllEvents] }

/-- `loadWeb3()`. With no account, `web3.eth.accounts[0]` is `undefined` (kept as
the empty string, which is no address), and `updateETHBalance(undefined)` throws
`invalid address` in web3 before any call is sent: the script stops there, after
the globals are bound and the listeners installed, and the result is the session
at that point. -/
def loadWeb3 (rt : Runtime) (chain : Chain) (provider : Provider) (s : Session) : Session :=
  if provider.isConnected then
    let s := { s with token := some { abi := tokenAbi, address := tokenAddress } }
    let s := { s with hub := some { abi := hubAbi, address := hubAddress } }
    let s := { s with exchange := some { abi := exchangeAbi, address := exchangeAddress } }
    let s := { s with window := { s.window with defaultAccount := provider.accounts.headD "" } }
    let s := initTokenListeners s
    let s := initExchangeListeners s
    match provider.accounts with
    | [] => s
    | _ :: _ =>
      let s := { s with window := updateETHBalance rt chain s.window.defaultAccount s.window }
      let s := { s with window := updateTokenBalance rt chain s.window.defaultAccount s.window }
      { s with window := loadOrderBook rt chain s.window }
  else s

/-- The address recorded for each contract in its JSON under `networks`, for the
network `1507665091422`, the one network that the three JSON objects share. -/
def deployedAddress : String → Option String
  | "Exchange" => some "0xd9206f77dd8e6557744feb30a12e68d8a09bb043"
  | "Token" => some "0x87dec673238cd9fe9bc1479c21f9f8165bc3879b"
  | "Hub" => some "0x21808e0d63d2fd3c5579a4425d3e9314ae47c6b9"
  | _ => none

/-! ## The uses of the contracts in the script -/

/-- The contract globals of the script. -/
inductive Global where
  | token
  | hub
  | exchange
deriving DecidableEq, Repr

/-- The contract bound to a global. -/
def Session.contract (s : Session) : Global → Option Contract
  | Global.token => s.token
  | Global.hub => s.hub
  | Global.exchange => s.exchange

/-- The functions of the contracts that the script calls, with the types of the
arguments it passes before the callback: `exchange.getOrderBookIds.call(cb)`,
`exchange.orderBook_.call(ids[i], cb)` with `ids[i]` an element of the `bytes32[]`
returned, `token.balanceOf(user, cb)` with `user` an address, `token.symbol(cb)`. -/
def functionsUsed : List (Global × String × List String) :=
  [ (Global.exchange, "getOrderBookIds", []),
    (Global.exchange, "orderBook_", ["bytes32"]),
    (Global.token, "balanceOf", ["address"]),
    (Global.token, "symbol", []) ]

/-- The events the script listens to, with the arguments of `res.args` that the
callback reads: the two `watch` calls on the token, and the three names that the
callback of `exchange.allEvents` compares `res.event` with. -/
def eventsUsed : List (Global × String × List String) :=
  [ (Global.token, "LogTokensMinted", ["to"]),
    (Global.token, "LogErrorString", ["errorString"]),
    (Global.exchange, "logOrderSubmitted",
      ["maker", "offerToken", "offerAmount", "wantToken", "wantAmount"]),
    (Global.exchange, "logOrderExecuted",
      ["offerToken", "offerAmount", "wantToken", "wantAmount"]),
    (Global.exchange, "LogErrorString", ["errorString"]) ]

/-- The positions at which `loadOrderBook` reads `order`, each with the role the
value plays: `order[5]` is tested as the filled flag, `order[0]` to `order[4]` are
passed to `appendOrder(maker, offerToken, offerAmount, wantToken, wantAmount)`. -/
def loadOrderBookReads : List (ℕ × String) :=
  [ (5, "filled"), (0, "maker"), (1, "offerToken"), (2, "offerAmount"),
    (3, "wantToken"), (4, "wantAmount") ]

/-- The positions at which the test of `submitOrder` reads `order`, each with the
value it is compared with. -/
def testOrderReads : List (ℕ × String) :=
  [ (0, "maker"), (1, "offerToken"), (2, "offerAmount"), (3, "wantToken"),
    (4, "wantAmount"), (5, "filled") ]

/-- A value returned by a contract call. -/
inductive AbiValue where
  | address (a : String)
  | uint (n : ℕ)
  | bool (b : Bool)
deriving DecidableEq, Repr

/-- The value of an order for an output name of `orderBook_`. -/
def Order.output (o : Order) (name : String) : Option AbiValue :=
  if name = "maker" then some (AbiValue.address o.maker)
  else if name = "offerToken" then some (AbiValue.address o.offerToken)
  else if name = "offerAmount" then some (AbiValue.uint o.offerAmount)
  else if name = "wantToken" then some (AbiValue.address o.wantToken)
  else if name = "wantAmount" then some (AbiValue.uint o.wantAmount)
  else if name = "filled" then some (AbiValue.bool o.filled)
  else none

/-- The array web3 passes to the callback of `orderBook_`: one value for each output
that the ABI declares, in the order of the ABI. -/
def orderArray (abi : List AbiEntry) (o : Order) : List (Option AbiValue) :=
  match abiLookup abi "function" "orderBook_" with
  | [e] => e.outputNames.map o.output
  | _ => []

/-- The callback of `exchange.orderBook_.call` read by position, as the script
writes it: `if (!order[5]) appendOrder(order[0], order[1], order[2], order[3], order[4])`.
The result is `none` when a position does not hold a value of the type that the
script uses it at. -/
def loadOrderArray (rt : Runtime) (order : List (Option AbiValue)) (w : Window) :
    Option Window :=
  match order.get? 5, order.get? 0, order.get? 1, order.get? 2, order.get? 3,
      order.get? 4 with
  | some (some (AbiValue.bool filled)), some (some (AbiValue.address maker)),
      some (some (AbiValue.address offerToken)), some (some (AbiValue.uint offerAmount)),
      some (some (AbiValue.address wantToken)), some (some (AbiValue.uint wantAmount)) =>
    some (if !filled then appendOrder rt maker offerToken offerAmount wantToken wantAmount w
          else w)
  | _, _, _, _, _, _ => none

/-! ## The contracts on chain

The Exchange and the Token are present as EVM bytecode (`exchangeJSON.unlinked_binary`
and `tokenJSON.unlinked_binary`). The definitions of this section are read off that
bytecode; the offsets quoted are byte offsets in the runtime code, which starts
after the constructor prefix (at byte `0x1f` of the exchange binary and `0x3c` of
the token binary).

* Storage follows the Solidity layout: in the exchange, slot 0 is the mapping
  `orderBook_` (six consecutive words for an order) and slot 1 the array
  `orderIds_`; in the token, slot 1 is the mapping `balances_` and slot 2 the
  mapping `allowed_`. Distinct keys are taken not to collide.
* Addresses and 32-byte ids are `String`s, as in the page; the zero address is
  `etherAddress`. The hash of an order, `keccak256` of the packed
  (address, uint256, address, uint256), is a parameter.
* A transaction that reverts, or runs into an `INVALID` instruction, gives `none`.
* The test deploys a `TestToken`, whose code is not in the sources: token contracts
  are taken to be instances of the repository's Token.
-/

/-- Storage of a Token contract. -/
structure TokenState where
  /-- `balances_[owner]`. -/
  balances_ : String → ℕ
  /-- `allowed_[owner][spender]`. -/
  allowed_ : String → String → ℕ

/-- Token, `balanceOf(_owner)` (runtime offset `0x30c`). -/
def TokenState.balanceOf (t : TokenState) (_owner : String) : ℕ :=
  t.balances_ _owner

/-- Token, `approve(_spender, _amount)` called by `sender` (runtime offset `0x15a`):
the amount must be positive and at most the sender's balance, and is added to the
allowance; otherwise `LogErrorString` is emitted and `false` returned. The checked
addition fails on overflow. -/
def TokenState.approve (t : TokenState) (sender _spender : String) (_amount : ℕ) :
    Option (TokenState × Bool) :=
  if ¬ (_amount > 0) then some (t, false)
  else if _amount > t.balances_ sender then some (t, false)
  else if t.allowed_ sender _spender + _amount ≥ 2 ^ 256 then none
  else
    let allowance := t.allowed_ sender _spender + _amount
    let row := Function.update (t.allowed_ sender) _spender allowance
    some ({ t with allowed_ := Function.update t.allowed_ sender row }, true)

/-- Token, `transferFrom(_from, _to, _amount)` called by `sender` (runtime offset
`0x1b5`): the amount must be positive, at most the balance of `_from` and at most
the allowance of `sender` on `_from`; otherwise `LogErrorString` is emitted and
`false` returned. The checked addition to the balance of `_to` fails on overflow. -/
def TokenState.transferFrom (t : TokenState) (sender _from _to : String) (_amount : ℕ) :
    Option (TokenState × Bool) :=
  if ¬ (_amount > 0) then some (t, false)
  else if _amount > t.balances_ _from then some (t, false)
  else if _amount > t.allowed_ _from sender then some (t, false)
  else
    let debited := Function.update t.balances_ _from (t.balances_ _from - _amount)
    let t := { t with balances_ := debited }
    if t.balances_ _to + _amount ≥ 2 ^ 256 then none
    else
      let credited := Function.update t.balances_ _to (t.balances_ _to + _amount)
      let t := { t with balances_ := credited }
      let allowance := t.allowed_ _from sender - _amount
      let row := Function.update (t.allowed_ _from) sender allowance
      some ({ t with allowed_ := Function.update t.allowed_ _from row }, true)

/-- A log of the exchange contract. -/
inductive ExchangeEvent where
  | logOrderSubmitted (maker offerToken : String) (offerAmount : ℕ) (wantToken : String)
      (wantAmount : ℕ)
  | logOrderExecuted (maker taker offerToken : String) (offerAmount : ℕ)
      (wantToken : String) (wantAmount : ℕ)
  | LogErrorString (errorString : String)
deriving DecidableEq, Repr

/-- The chain as far as the exchange reads and writes it. -/
structure World where
  /-- The wei held by each account. -/
  balance : String → ℕ
  /-- The token contracts, by address; `none` where no code is deployed. -/
  tokens : String → Option TokenState
  /-- Exchange storage, slot 0: `orderBook_`. -/
  orderBook_ : String → Order
  /-- Exchange storage, slot 1: `orderIds_`. -/
  orderIds_ : List String

/-- What is fixed during a test: the address of the exchange and the hash of orders. -/
structure Evm where
  /-- The address of the exchange contract, `this`. -/
  this : String
  /-- `keccak256(address, uint256, address, uint256)` of the packed arguments. -/
  keccak256 : String → ℕ → String → ℕ → String

/-- An order slot that was never written: all six words zero. -/
def emptyOrder : Order where
  maker := etherAddress
  offerToken := etherAddress
  offerAmount := 0
  wantToken := etherAddress
  wantAmount := 0
  filled := false

/-- The test that guards both lookups of `submitOrder` (offsets `0x35f`, `0x3ec`):
the stored `wantAmount` is not zero and the order is not filled. -/
def Order.active (o : Order) : Bool :=
  o.wantAmount != 0 && !o.filled

/-- The chain after `account` has paid `amount` wei. -/
def World.debit (w : World) (account : String) (amount : ℕ) : World :=
  { w with balance := Function.update w.balance account (w.balance account - amount) }

/-- The chain after `account` has received `amount` wei. -/
def World.credit (w : World) (account : String) (amount : ℕ) : World :=
  { w with balance := Function.update w.balance account (w.balance account + amount) }

/-- Exchange, `recipient.transfer(value)` (offsets `0x678`, `0x759`): the call fails,
and the transaction reverts, when the exchange holds less than `value`. The
recipient is taken to be an account that accepts the payment. -/
def World.transfer (w : World) (this recipient : String) (value : ℕ) : Option World :=
  if w.balance this < value then none
  else some ((w.debit this value).credit recipient value)

/-- Exchange, the external call `Token(token).transferFrom(_from, _to, _amount)`
(offsets `0x6ae`, `0x790`): the transaction reverts when no code is at `token` or
when the call fails; the boolean returned by the token is dropped. -/
def World.tokenTransferFrom (w : World) (this token _from _to : String) (_amount : ℕ) :
    Option World :=
  match w.tokens token with
  | none => none
  | some t =>
    match t.transferFrom this _from _to _amount with
    | none => none
    | some (t, _) => some { w with tokens := Function.update w.tokens token (some t) }

/-- Exchange, the internal function at offset `0x5ed`, entered from `submitOrder` with
the id of the matching order: the order is read from storage; when its offer
token is ether the offer amount is paid to the caller and the want token is moved
from the caller to the maker; when its want token is ether the want amount is
paid to the maker and the offer token is moved from the maker to the caller; then
the order is marked filled, `logOrderExecuted` is emitted and `true` returned. -/
def executeOrder (evm : Evm) (sender _orderId : String) (w : World) :
    Option (Bool × List ExchangeEvent × World) :=
  let order := w.orderBook_ _orderId
  let moved : Option World :=
    if order.offerToken = etherAddress then
      (w.transfer evm.this sender order.offerAmount).bind fun w =>
        w.tokenTransferFrom evm.this order.wantToken sender order.maker order.wantAmount
    else if order.wantToken = etherAddress then
      (w.transfer evm.this order.maker order.wantAmount).bind fun w =>
        w.tokenTransferFrom evm.this order.offerToken order.maker sender order.offerAmount
    else some w
  moved.map fun w =>
    let filledOrder := { w.orderBook_ _orderId with filled := true }
    (true,
     [ExchangeEvent.logOrderExecuted order.maker sender order.offerToken order.offerAmount
        order.wantToken order.wantAmount],
     { w with orderBook_ := Function.update w.orderBook_ _orderId filledOrder })

/-- Exchange, the funding test of `submitOrder` (offsets `0x250` to `0x2f9`): for an
offer of ether the exchange must hold at least the offer amount (the value sent
with the call included); for an offer of a token there must be code at the token
address and `balanceOf(msg.sender)` must be at least the offer amount. -/
def funded (evm : Evm) (sender _offerToken : String) (_offerAmount : ℕ) (w : World) : Bool :=
  if _offerToken = etherAddress then decide (_offerAmount ≤ w.balance evm.this)
  else
    match w.tokens _offerToken with
    | none => false
    | some t => decide (_offerAmount ≤ t.balanceOf sender)

/-- Exchange, `submitOrder(_offerToken, _offerAmount, _wantToken, _wantAmount)` called
by `sender` (selector `0x8c946c26`, body at offset `0x233`), the value sent already
credited to the exchange. The result is the boolean returned, the logs emitted and
the chain after the call. -/
def submitOrder (evm : Evm) (sender _offerToken : String) (_offerAmount : ℕ)
    (_wantToken : String) (_wantAmount : ℕ) (w : World) :
    Option (Bool × List ExchangeEvent × World) :=
  if ¬ (_offerAmount > 0) then none
  else if ¬ (_wantAmount > 0) then none
  else if ¬ (funded evm sender _offerToken _offerAmount w = true) then none
  else
    let orderId := evm.keccak256 _wantToken _wantAmount _offerToken _offerAmount
    if (w.orderBook_ orderId).active = true then executeOrder evm sender orderId w
    else
      let orderId := evm.keccak256 _offerToken _offerAmount _wantToken _wantAmount
      if (w.orderBook_ orderId).active = true then
        some (false,
          [ExchangeEvent.LogErrorString
            "Identical order is already active, Exchange.submitOrder()"], w)
      else
        let w := { w with orderIds_ := w.orderIds_ ++ [orderId] }
        let order : Order :=
          { maker := sender, offerToken := _offerToken, offerAmount := _offerAmount,
            wantToken := _wantToken, wantAmount := _wantAmount, filled := false }
        let w := { w with orderBook_ := Function.update w.orderBook_ orderId order }
        some (true,
          [ExchangeEvent.logOrderSubmitted sender _offerToken _offerAmount _wantToken
            _wantAmount], w)

/-- Exchange, the getter `orderIds_(i)` (selector `0x3f5f18bc`, offset `0x1c9`): an
index past the end runs into `INVALID`. -/
def World.orderIdAt (w : World) (i : ℕ) : Option String :=
  w.orderIds_.get? i

/-- What a transaction leaves for its sender to see: whether it ran to the end, the
boolean it returned and the logs of the exchange. -/
structure Receipt where
  /-- Whether the transaction ran to the end; `false` when it reverted. -/
  status : Bool
  /-- The boolean returned, `false` when the transaction reverted. -/
  returned : Bool
  /-- The logs emitted by the exchange, in order. -/
  logs : List ExchangeEvent
deriving DecidableEq, Repr

/-- A transaction of `sender` that calls `submitOrder` with `value` wei, as the tests
send it. `fee` is what the sender pays for gas. The result is `none` when the
sender cannot pay the value and the fee. When the call reverts only the fee is
taken. -/
def submitOrderTx (evm : Evm) (sender : String) (value fee : ℕ) (_offerToken : String)
    (_offerAmount : ℕ) (_wantToken : String) (_wantAmount : ℕ) (w : World) :
    Option (Receipt × World) :=
  if w.balance sender < value + fee then none
  else
    let w := w.debit sender fee
    let paid := (w.debit sender value).credit evm.this value
    match submitOrder evm sender _offerToken _offerAmount _wantToken _wantAmount paid with
    | none => some ({ status := false, returned := false, logs := [] }, w)
    | some (returned, logs, w) =>
      some ({ status := true, returned := returned, logs := logs }, w)

/-- A transaction of `sender` that calls `approve(_spender, _amount)` on the token at
`token`, for a gas fee `fee`. -/
def approveTx (token sender : String) (fee : ℕ) (_spender : String) (_amount : ℕ)
    (w : World) : Option World :=
  if w.balance sender < fee then none
  else
    let w := w.debit sender fee
    match w.tokens token with
    | none => some w
    | some t =>
      match t.approve sender _spender _amount with
      | none => some w
      | some (t, _) => some { w with tokens := Function.update w.tokens token (some t) }

/-- The steps of the second test, `executeOrder()`, that change the chain: the maker
submits the order offering ether with the offer amount as value, the taker
approves the exchange for the want amount, the taker submits the flipped order.
The three fees are the gas fees of the three transactions. -/
def executeOrderTest (evm : Evm) (maker taker token : String) (offerAmount wantAmount : ℕ)
    (makerFee approveFee takerFee : ℕ) (w : World) : Option (Receipt × World) :=
  (submitOrderTx evm maker offerAmount makerFee etherAddress offerAmount token wantAmount
      w).bind fun r₁ =>
    (approveTx token taker approveFee evm.this wantAmount r₁.2).bind fun w₂ =>
      submitOrderTx evm taker 0 takerFee token wantAmount etherAddress offerAmount w₂

/-! ## Concrete values for evaluation -/

/-- A window before anything is loaded. -/
def blankWindow : Window where
  defaultAccount := "0x00a329c0648769a73afac7f9381e08fb43dbea72"
  orderBook := []
  etherBalance := ""
  blgBalance := ""
  txHash := []
  successModal := false
  alerts := []
  calls := []

/-- An unfilled order offering 1 wei of ether for 100 tokens, as in the test of
`submitOrder`. -/
def sampleOrder : Order where
  maker := "0x00a329c0648769a73afac7f9381e08fb43dbea72"
  offerToken := etherAddress
  offerAmount := 1
  wantToken := tokenAddress
  wantAmount := 100
  filled := false

/-- The arguments of an event about `sampleOrder`. -/
def sampleArgs : Args where
  maker := "0x00a329c0648769a73afac7f9381e08fb43dbea72"
  offerToken := etherAddress
  offerAmount := 1
  wantToken := tokenAddress
  wantAmount := 100
  errorString := ""
  to_ := "0x00a329c0648769a73afac7f9381e08fb43dbea72"

/-- A chain on which the id of `sampleOrder` is listed twice, the account holds
`2 * 10^18` wei and 7 tokens. -/
def sampleChain : Chain where
  getBalance := fun _ => some (2 * 10 ^ 18)
  balanceOf := fun _ => some 7
  symbol := some "BLG"
  getOrderBookIds := ["0x01", "0x01"]
  orderBook_ := fun _ => sampleOrder

/-- The chain of `sampleChain` with an account that holds 2363 ether. -/
def wealthyChain : Chain where
  getBalance := fun _ => some (2363 * 10 ^ 18)
  balanceOf := fun _ => some 7
  symbol := some "BLG"
  getOrderBookIds := ["0x01", "0x01"]
  orderBook_ := fun _ => sampleOrder

/-- The text of a whole number in exponent notation, as BigNumber writes amounts
from `10^21` on: the first digit, then a point and the digits up to the last one
that is not zero when there are any, then `e+` and the number of digits after the
first. -/
def exponentNotation (n : ℕ) : String :=
  let digits := (Nat.repr n).data
  let significant := (digits.reverse.dropWhile (fun c => c == '0')).reverse
  let exponent := Nat.repr (digits.length - 1)
  match significant with
  | [] => "0"
  | [d] => String.mk [d] ++ "e+" ++ exponent
  | d :: rest => String.mk (d :: '.' :: rest) ++ "e+" ++ exponent

/-- The runtime of `sampleRuntime` with amounts written as BigNumber writes them
also from `10^21` on, in exponent notation. -/
def bigNumberRuntime : Runtime where
  bigNumberToString := fun n => if n < 10 ^ 21 then Nat.repr n else exponentNotation n
  numberToString := sampleRuntime.numberToString

/-- The arguments of an event about an order offering 1000 ether, `10^21` wei, for 5
tokens. -/
def largeArgs : Args where
  maker := "0x00a329c0648769a73afac7f9381e08fb43dbea72"
  offerToken := etherAddress
  offerAmount := 10 ^ 21
  wantToken := tokenAddress
  wantAmount := 5
  errorString := ""
  to_ := "0x00a329c0648769a73afac7f9381e08fb43dbea72"

/-- A session before `loadWeb3`: nothing bound, no listener. -/
def blankSession : Session where
  window := blankWindow
  token := none
  hub := none
  exchange := none
  watchers := []

/-- A chain whose calls all fail. -/
def failingChain : Chain where
  getBalance := fun _ => none
  balanceOf := fun _ => none
  symbol := none
  getOrderBookIds := []
  orderBook_ := fun _ => sampleOrder

/-- The maker of the tests, `accounts[0]`. -/
def testMaker : String := "0x00a329c0648769a73afac7f9381e08fb43dbea72"

/-- The taker of the tests, `accounts[1]`. -/
def testTaker : String := "0x00ce0d46d924cc8437c806721496599fc3ffa268"

/-- The address of the token that a test deploys. -/
def testToken : String := "0x1000000000000000000000000000000000000001"

/-- An exchange for evaluations, at `exchangeAddress`. The hash is a stand-in for
`keccak256`: the four packed arguments written one after the other, which like
`keccak256` tells different orders apart. -/
def sampleEvm : Evm where
  this := exchangeAddress
  keccak256 := fun a m b n => a ++ Nat.repr m ++ b ++ Nat.repr n

/-- The chain at the start of a test: a new exchange, a token of which the taker
holds the whole `supply` and has approved `approved` to the exchange, and `10^20`
wei for each of the two accounts. -/
def testWorld (supply approved : ℕ) : World where
  balance := fun a => if a = testMaker ∨ a = testTaker then 10 ^ 20 else 0
  tokens := fun a =>
    if a = testToken then
      some { balances_ := fun owner => if owner = testTaker then supply else 0
             allowed_ := fun owner spender =>
               if owner = testTaker ∧ spender = exchangeAddress then approved else 0 }
    else none
  orderBook_ := fun _ => emptyOrder
  orderIds_ := []

/-- The chain of `testWorld` once the maker's order, `offerAmount` wei for
`wantAmount` tokens, is listed and the exchange holds the wei offered. -/
def listedWorld (supply approved offerAmount wantAmount : ℕ) : World where
  balance := fun a =>
    if a = exchangeAddress then offerAmount else (testWorld supply approved).balance a
  tokens := (testWorld supply approved).tokens
  orderBook_ := fun id =>
    if id = sampleEvm.keccak256 etherAddress offerAmount testToken wantAmount then
      { maker := testMaker, offerToken := etherAddress, offerAmount := offerAmount,
        wantToken := testToken, wantAmount := wantAmount, filled := false }
    else emptyOrder
  orderIds_ := [sampleEvm.keccak256 etherAddress offerAmount testToken wantAmount]

/-! ## The amounts of the tests -/

/-- The value of a JavaScript decimal literal with an exponent part,
`<digits>e<exponent>`: the digits times ten to the exponent. -/
def exponentLiteral (digits exponent : ℕ) : ℕ :=
  digits * 10 ^ exponent

/-- The offer amount of the second test: `const offerAmount = 1*10e18 // 1 ether`.
The value is a whole number that a double holds exactly. -/
def executeOrderTestOfferAmount : ℕ :=
  1 * exponentLiteral 10 18

/-- The wei in one ether, the `10**18` by which `updateETHBalance` and `appendOrder`
divide. -/
def weiPerEther : ℕ :=
  10 ^ 18

/-! ## Helper lemmas -/

theorem log2_eq_of_bounds {n k : ℕ} (h1 : 2 ^ k ≤ n) (h2 : n < 2 ^ (k + 1)) :
    Nat.log2 n = k := by
  have hn : n ≠ 0 := by
    have : 0 < 2 ^ k := Nat.two_pow_pos k
    omega
  have a := (Nat.le_log2 hn).2 h1
  have b := (Nat.log2_lt hn).2 h2
  omega

theorem toNumber_of_log2 {n k : ℕ} (h1 : 2 ^ k ≤ n) (h2 : n < 2 ^ (k + 1)) :
    toNumber n = if n < 2 ^ 53 then n else roundHalfEven n (2 ^ (k - 52)) * 2 ^ (k - 52) := by
  simp only [toNumber, log2_eq_of_bounds h1 h2]

theorem binaryExponent_of_log2 {x y j k : ℕ} (hx1 : 2 ^ j ≤ x) (hx2 : x < 2 ^ (j + 1))
    (hy1 : 2 ^ k ≤ y) (hy2 : y < 2 ^ (k + 1)) :
    binaryExponent x y
      = if y * 2 ^ ((j : ℤ) - k).toNat ≤ x * 2 ^ (-((j : ℤ) - k)).toNat then (j : ℤ) - k
        else (j : ℤ) - k - 1 := by
  simp only [binaryExponent, log2_eq_of_bounds hx1 hx2, log2_eq_of_bounds hy1 hy2]

theorem toNumber_one_ether : toNumber (10 ^ 18) = 10 ^ 18 := by
  rw [@toNumber_of_log2 (10 ^ 18) 59 (by norm_num) (by norm_num)]
  decide

theorem divideNumbers_one_ether : divideNumbers (toNumber (10 ^ 18)) (10 ^ 18) = 1 := by
  rw [toNumber_one_ether]
  have he : binaryExponent (10 ^ 18) (10 ^ 18) = 0 := by
    rw [@binaryExponent_of_log2 (10 ^ 18) (10 ^ 18) 59 59 (by norm_num) (by norm_num)
      (by norm_num) (by norm_num)]
    decide
  simp only [divideNumbers, he]
  have hr : roundHalfEven (10 ^ 18 * 2 ^ (-((0 : ℤ) - 52)).toNat) (10 ^ 18 * 2 ^ ((0 : ℤ) - 52).toNat)
      = 2 ^ 52 := by decide
  rw [hr]
  norm_num

/-- Rounding to the nearest whole number is off by a half at most. -/
theorem roundHalfEven_error (a b : ℕ) (hb : 0 < b) :
    |(roundHalfEven a b : ℚ) - (a : ℚ) / b| ≤ 1 / 2 := by
  have hbq : (0 : ℚ) < b := by exact_mod_cast hb
  have hdm : (a : ℚ) = b * ((a / b : ℕ) : ℚ) + ((a % b : ℕ) : ℚ) := by
    exact_mod_cast (Nat.div_add_mod a b).symm
  have hr : ((a % b : ℕ) : ℚ) < b := by exact_mod_cast Nat.mod_lt a hb
  have hr0 : (0 : ℚ) ≤ ((a % b : ℕ) : ℚ) := Nat.cast_nonneg _
  have key : ∀ R : ℚ, |R * b - a| ≤ b / 2 → |R - a / b| ≤ 1 / 2 := by
    intro R h
    have e : R - a / b = (R * b - a) / b := by field_simp
    rw [e, abs_div, abs_of_pos hbq, div_le_iff₀ hbq]
    linarith
  unfold roundHalfEven
  simp only
  split_ifs with h1 h2 h3
  · apply key
    have h : (2 : ℚ) * ((a % b : ℕ) : ℚ) < b := by exact_mod_cast h1
    rw [abs_le]
    constructor <;> linarith
  · apply key
    have h : (b : ℚ) < 2 * ((a % b : ℕ) : ℚ) := by exact_mod_cast h2
    push_cast
    rw [abs_le]
    constructor <;> linarith
  · apply key
    have h : (2 : ℚ) * ((a % b : ℕ) : ℚ) ≤ b := by exact_mod_cast Nat.le_of_not_lt h2
    rw [abs_le]
    constructor <;> linarith
  · apply key
    have h : (b : ℚ) ≤ 2 * ((a % b : ℕ) : ℚ) := by exact_mod_cast Nat.le_of_not_lt h1
    push_cast
    rw [abs_le]
    constructor <;> linarith

/-- The conversion of a whole number to a Number is off by one part in `2^53` at
most. -/
theorem toNumber_error (n : ℕ) : |(toNumber n : ℚ) - n| ≤ (n : ℚ) / 2 ^ 53 := by
  unfold toNumber
  split_ifs with h
  · simp only [sub_self, abs_zero]
    positivity
  · have hn : 2 ^ 53 ≤ n := Nat.le_of_not_lt h
    have hn0 : n ≠ 0 := by
      have : 0 < 2 ^ 53 := Nat.two_pow_pos 53
      omega
    have hl : 53 ≤ Nat.log2 n := (Nat.le_log2 hn0).2 hn
    have hpow : 2 ^ (Nat.log2 n - 52) * 2 ^ 52 ≤ n := by
      rw [← pow_add]
      have : Nat.log2 n - 52 + 52 = Nat.log2 n := by omega
      rw [this]
      exact Nat.log2_self_le hn0
    have hpowq : ((2 : ℚ) ^ (Nat.log2 n - 52)) * 2 ^ 52 ≤ n := by exact_mod_cast hpow
    have hp : (0 : ℚ) < 2 ^ (Nat.log2 n - 52) := by positivity
    have hr := roundHalfEven_error n (2 ^ (Nat.log2 n - 52)) (Nat.two_pow_pos _)
    simp only
    push_cast at hr ⊢
    have e : (roundHalfEven n (2 ^ (Nat.log2 n - 52)) : ℚ) * 2 ^ (Nat.log2 n - 52) - n
        = ((roundHalfEven n (2 ^ (Nat.log2 n - 52)) : ℚ) - n / 2 ^ (Nat.log2 n - 52))
            * 2 ^ (Nat.log2 n - 52) := by
      field_simp
    rw [e, abs_mul, abs_of_pos hp]
    calc |(roundHalfEven n (2 ^ (Nat.log2 n - 52)) : ℚ) - n / 2 ^ (Nat.log2 n - 52)|
            * 2 ^ (Nat.log2 n - 52)
        ≤ 1 / 2 * 2 ^ (Nat.log2 n - 52) := by
          exact mul_le_mul_of_nonneg_right hr hp.le
      _ ≤ (n : ℚ) / 2 ^ 53 := by
          rw [le_div_iff₀ (by positivity)]
          linarith

/-- The binary exponent is not above the quotient. -/
theorem binaryExponent_le (x y : ℕ) (hx : 0 < x) (hy : 0 < y) :
    (2 : ℚ) ^ binaryExponent x y ≤ (x : ℚ) / y := by
  have hyq : (0 : ℚ) < y := by exact_mod_cast hy
  have hx0 : x ≠ 0 := by omega
  unfold binaryExponent
  simp only
  split_ifs with h
  · have hq : (y : ℚ) * 2 ^ ((Nat.log2 x : ℤ) - Nat.log2 y).toNat
        ≤ x * 2 ^ (-((Nat.log2 x : ℤ) - Nat.log2 y)).toNat := by exact_mod_cast h
    have ht : ((Nat.log2 x : ℤ) - Nat.log2 y)
        = (((Nat.log2 x : ℤ) - Nat.log2 y).toNat : ℤ)
          - ((-((Nat.log2 x : ℤ) - Nat.log2 y)).toNat : ℤ) :=
      (Int.toNat_sub_toNat_neg _).symm
    rw [ht, zpow_sub₀ (by norm_num), zpow_natCast, zpow_natCast, le_div_iff₀ hyq,
      div_mul_eq_mul_div, div_le_iff₀ (by positivity)]
    linarith
  · have h1 : (2 : ℚ) ^ Nat.log2 x ≤ x := by exact_mod_cast Nat.log2_self_le hx0
    have h2 : (y : ℚ) ≤ 2 ^ (Nat.log2 y + 1) := by
      exact_mod_cast (Nat.le_of_lt (@Nat.lt_log2_self y))
    have ht : ((Nat.log2 x : ℤ) - Nat.log2 y - 1)
        = ((Nat.log2 x : ℕ) : ℤ) - ((Nat.log2 y + 1 : ℕ) : ℤ) := by push_cast; ring
    rw [ht, zpow_sub₀ (by norm_num), zpow_natCast, zpow_natCast]
    exact div_le_div₀ (by positivity) h1 hyq h2

/-- The quotient is below the next power of two after its binary exponent. -/
theorem lt_binaryExponent_succ (x y : ℕ) (hy : 0 < y) :
    (x : ℚ) / y < (2 : ℚ) ^ (binaryExponent x y + 1) := by
  have hyq : (0 : ℚ) < y := by exact_mod_cast hy
  have hy0 : y ≠ 0 := by omega
  unfold binaryExponent
  simp only
  split_ifs with h
  · have h1 : (x : ℚ) < 2 ^ (Nat.log2 x + 1) := by exact_mod_cast (@Nat.lt_log2_self x)
    have h2 : (2 : ℚ) ^ Nat.log2 y ≤ y := by exact_mod_cast Nat.log2_self_le hy0
    have ht : ((Nat.log2 x : ℤ) - Nat.log2 y + 1)
        = ((Nat.log2 x + 1 : ℕ) : ℤ) - ((Nat.log2 y : ℕ) : ℤ) := by push_cast; ring
    rw [ht, zpow_sub₀ (by norm_num), zpow_natCast, zpow_natCast, div_lt_div_iff₀ hyq
      (by positivity)]
    calc (x : ℚ) * 2 ^ Nat.log2 y ≤ x * y := by
          exact mul_le_mul_of_nonneg_left h2 (Nat.cast_nonneg x)
      _ < 2 ^ (Nat.log2 x + 1) * y := by
          exact mul_lt_mul_of_pos_right h1 hyq
  · have hq : (x : ℚ) * 2 ^ (-((Nat.log2 x : ℤ) - Nat.log2 y)).toNat
        < y * 2 ^ ((Nat.log2 x : ℤ) - Nat.log2 y).toNat := by
      exact_mod_cast Nat.lt_of_not_le h
    have ht : ((Nat.log2 x : ℤ) - Nat.log2 y - 1 + 1)
        = (((Nat.log2 x : ℤ) - Nat.log2 y).toNat : ℤ)
          - ((-((Nat.log2 x : ℤ) - Nat.log2 y)).toNat : ℤ) := by
      rw [Int.toNat_sub_toNat_neg]
      ring
    rw [ht, zpow_sub₀ (by norm_num), zpow_natCast, zpow_natCast, div_lt_div_iff₀ hyq
      (by positivity)]
    linarith

/-- The division of two Numbers is off by one part in `2^53` at most. -/
theorem divideNumbers_error (x y : ℕ) (hx : 0 < x) (hy : 0 < y) :
    |divideNumbers x y - (x : ℚ) / y| ≤ (x : ℚ) / y / 2 ^ 53 := by
  have hxq : (0 : ℚ) < x := by exact_mod_cast hx
  have hyq : (0 : ℚ) < y := by exact_mod_cast hy
  have hle := binaryExponent_le x y hx hy
  unfold divideNumbers
  simp only
  generalize binaryExponent x y = f at hle ⊢
  have hp : (0 : ℚ) < 2 ^ (f - 52) := by positivity
  have hpf : (2 : ℚ) ^ (f - 52) * 2 ^ 52 = 2 ^ f := by
    rw [zpow_sub₀ (by norm_num)]
    norm_num
  have hsplit : (2 : ℚ) ^ (f - 52)
      = 2 ^ (f - 52).toNat / 2 ^ (-(f - 52)).toNat := by
    have ht : (f - 52) = ((f - 52).toNat : ℤ) - ((-(f - 52)).toNat : ℤ) :=
      (Int.toNat_sub_toNat_neg _).symm
    conv_lhs => rw [ht]
    rw [zpow_sub₀ (by norm_num), zpow_natCast, zpow_natCast]
  have hr := roundHalfEven_error (x * 2 ^ (-(f - 52)).toNat) (y * 2 ^ (f - 52).toNat)
    (Nat.mul_pos hy (Nat.two_pow_pos _))
  push_cast at hr
  have hquot : (x : ℚ) * 2 ^ (-(f - 52)).toNat / (y * 2 ^ (f - 52).toNat)
      = x / y / 2 ^ (f - 52) := by
    rw [hsplit]
    field_simp
  rw [hquot] at hr
  generalize (roundHalfEven (x * 2 ^ (-(f - 52)).toNat) (y * 2 ^ (f - 52).toNat) : ℚ) = R
    at hr ⊢
  have e : R * 2 ^ (f - 52) - x / y = (R - x / y / 2 ^ (f - 52)) * 2 ^ (f - 52) := by
    field_simp
    ring
  rw [e, abs_mul, abs_of_pos hp]
  calc |R - x / y / 2 ^ (f - 52)| * 2 ^ (f - 52)
      ≤ 1 / 2 * 2 ^ (f - 52) := mul_le_mul_of_nonneg_right hr hp.le
    _ ≤ (x : ℚ) / y / 2 ^ 53 := by
        rw [le_div_iff₀ (by positivity)]
        linarith

theorem divideNumbers_zero (y : ℕ) (hy : 0 < y) : divideNumbers 0 y = 0 := by
  have h : roundHalfEven 0 (y * 2 ^ (binaryExponent 0 y - 52).toNat) = 0 := by
    have hpos : 0 < y * 2 ^ (binaryExponent 0 y - 52).toNat :=
      Nat.mul_pos hy (Nat.two_pow_pos _)
    simp [roundHalfEven, hpos]
  simp [divideNumbers, h]

/-- An amount in wei divided by `10**18` as the page divides it is within one part in
`2^51` of the exact quotient. -/
theorem wei_quotient_error (amount : ℕ) :
    |divideNumbers (toNumber amount) (10 ^ 18) - (amount : ℚ) / 10 ^ 18|
      ≤ (amount : ℚ) / 10 ^ 18 / 2 ^ 51 := by
  rcases Nat.eq_zero_or_pos amount with h0 | hpos
  · subst h0
    have : toNumber 0 = 0 := by decide
    rw [this, divideNumbers_zero _ (by norm_num)]
    simp
  · have hq : (0 : ℚ) < amount := by exact_mod_cast hpos
    have ht := toNumber_error amount
    have htpos : 0 < toNumber amount := by
      rcases Nat.eq_zero_or_pos (toNumber amount) with hz | hp
      · rw [hz] at ht
        simp only [Nat.cast_zero, zero_sub, abs_neg, abs_of_pos hq] at ht
        rw [le_div_iff₀ (by positivity)] at ht
        nlinarith
      · exact hp
    have hd := divideNumbers_error (toNumber amount) (10 ^ 18) htpos (by norm_num)
    push_cast at hd
    rw [abs_le] at ht hd ⊢
    constructor <;> linarith [ht.1, ht.2, hd.1, hd.2]

theorem orderMarkup_eq_markup (rt : Runtime) (maker offerToken : String) (offerAmount : ℕ)
    (wantToken : String) (wantAmount : ℕ) :
    orderMarkup rt maker offerToken offerAmount wantToken wantAmount
      = (orderRow rt maker offerToken offerAmount wantToken wantAmount).markup := by
  simp [orderMarkup, orderRow, Row.markup, rowId, String.intercalate, String.intercalate.go,
    String.append_assoc]

theorem takeWhile_append_of_all (p : Char → Bool) (l r : List Char)
    (h : ∀ c ∈ l, p c = true) : (l ++ r).takeWhile p = l ++ r.takeWhile p := by
  induction l with
  | nil => rfl
  | cons a t ih =>
    have ha : p a = true := h a (List.mem_cons_self a t)
    have ht : ∀ c ∈ t, p c = true := fun c hc => h c (List.mem_cons_of_mem a hc)
    simp [List.takeWhile, ha, ih ht]

theorem isAddress_data {s : String} (h : isAddress s = true) :
    ∃ hex : List Char, s.data = '0' :: 'x' :: hex ∧ hex.length = 40 := by
  unfold isAddress at h
  split at h
  · next hex heq =>
    refine ⟨hex, heq, ?_⟩
    simp only [Bool.and_eq_true, beq_iff_eq] at h
    exact h.1
  · exact absurd h (by simp)

theorem isAddress_length {s : String} (h : isAddress s = true) : s.data.length = 42 := by
  obtain ⟨hex, hs, hl⟩ := isAddress_data h
  simp [hs, hl]

theorem isDecimal_all {s : String} (h : isDecimal s = true) :
    ∀ c ∈ s.data, Char.isDigit c = true := by
  unfold isDecimal at h
  simpa [List.all_eq_true] using h

/-- The digits of an amount followed by an address: the digits can be read back. -/
theorem digits_before_address {a a' t t' u u' : List Char}
    (ha : ∀ c ∈ a, Char.isDigit c = true) (ha' : ∀ c ∈ a', Char.isDigit c = true)
    (h : a ++ ('0' :: 'x' :: t ++ u) = a' ++ ('0' :: 'x' :: t' ++ u')) : a = a' := by
  have hx : Char.isDigit 'x' = false := by decide
  have h0 : Char.isDigit '0' = true := by decide
  have key := congrArg (List.takeWhile Char.isDigit) h
  rw [takeWhile_append_of_all _ _ _ ha, takeWhile_append_of_all _ _ _ ha'] at key
  simp only [List.cons_append, List.takeWhile, h0, hx] at key
  exact List.append_cancel_right key

theorem executedSelector_eq (rt : Runtime) (args : Args) :
    executedSelector rt args
      = "#" ++ rowId args.offerToken (rt.bigNumberToString args.offerAmount) args.wantToken
          (rt.bigNumberToString args.wantAmount) := by
  simp [executedSelector, rowId, String.append_assoc]

theorem jqueryRemove_hash (id : String) (w : Window) (hplain : isPlainId id.data = true) :
    jqueryRemove ("#" ++ id) w
      = { w with orderBook := w.orderBook.eraseP (fun r => r.id.data = id.data) } := by
  have h : ("#" ++ id).data = '#' :: id.data := by
    rw [String.data_append]
    rfl
  simp only [jqueryRemove, h, hplain, if_true]

theorem jqueryRemove_other (id : String) (w : Window) (hplain : isPlainId id.data = false) :
    jqueryRemove ("#" ++ id) w = w := by
  have h : ("#" ++ id).data = '#' :: id.data := by
    rw [String.data_append]
    rfl
  simp [jqueryRemove, h, hplain]

theorem updateETHBalance_orderBook (rt : Runtime) (chain : Chain) (user : String)
    (w : Window) : (updateETHBalance rt chain user w).orderBook = w.orderBook := by
  unfold updateETHBalance
  cases chain.getBalance user <;> rfl

theorem updateTokenBalance_orderBook (rt : Runtime) (chain : Chain) (user : String)
    (w : Window) : (updateTokenBalance rt chain user w).orderBook = w.orderBook := by
  unfold updateTokenBalance
  cases chain.balanceOf user <;> rfl

theorem updateETHBalance_modal (rt : Runtime) (chain : Chain) (user : String)
    (w : Window) :
    (updateETHBalance rt chain user w).txHash = w.txHash
      ∧ (updateETHBalance rt chain user w).successModal = w.successModal := by
  unfold updateETHBalance
  cases chain.getBalance user <;> exact ⟨rfl, rfl⟩

theorem updateTokenBalance_modal (rt : Runtime) (chain : Chain) (user : String)
    (w : Window) :
    (updateTokenBalance rt chain user w).txHash = w.txHash
      ∧ (updateTokenBalance rt chain user w).successModal = w.successModal := by
  unfold updateTokenBalance
  cases chain.balanceOf user <;> exact ⟨rfl, rfl⟩

theorem updateETHBalance_calls (rt : Runtime) (chain : Chain) (user : String)
    (w : Window) :
    (updateETHBalance rt chain user w).calls = w.calls ++ [Call.getBalance user] := by
  unfold updateETHBalance
  cases chain.getBalance user <;> rfl

theorem updateTokenBalance_calls (rt : Runtime) (chain : Chain) (user : String)
    (w : Window) :
    (updateTokenBalance rt chain user w).calls
      = w.calls ++ [Call.balanceOf user, Call.symbol] := by
  unfold updateTokenBalance
  cases chain.balanceOf user <;> simp

theorem updateETHBalance_defaultAccount (rt : Runtime) (chain : Chain) (user : String)
    (w : Window) : (updateETHBalance rt chain user w).defaultAccount = w.defaultAccount := by
  unfold updateETHBalance
  cases chain.getBalance user <;> rfl

theorem openTransactionSuccessModal_txHash (msg tx : String) (w : Window) :
    (openTransactionSuccessModal msg tx w).txHash
      = ["<p>" ++ msg ++ "</p>", "</br><p>Here is your transaction hash:</p>",
         "<a href=" ++ ("https://kovan.etherscan.io/tx/" ++ tx) ++ ">" ++ tx ++ "</a>"] := by
  simp [openTransactionSuccessModal]

/-- The row built for an order as `exchange.orderBook_` returns it. -/
theorem loadOrder_orderBook (rt : Runtime) (chain : Chain) (w : Window) (id : String) :
    (loadOrder rt chain w id).orderBook
      = w.orderBook ++
          (if (chain.orderBook_ id).filled then []
           else [orderRow rt (chain.orderBook_ id).maker (chain.orderBook_ id).offerToken
                  (chain.orderBook_ id).offerAmount (chain.orderBook_ id).wantToken
                  (chain.orderBook_ id).wantAmount]) := by
  unfold loadOrder
  cases h : (chain.orderBook_ id).filled <;> simp [h, appendOrder]

theorem foldl_loadOrder_orderBook (rt : Runtime) (chain : Chain) (ids : List String) :
    ∀ w : Window,
      (ids.foldl (loadOrder rt chain) w).orderBook
        = w.orderBook ++
            ((ids.filter (fun id => !(chain.orderBook_ id).filled)).map
              (fun id => orderRow rt (chain.orderBook_ id).maker (chain.orderBook_ id).offerToken
                (chain.orderBook_ id).offerAmount (chain.orderBook_ id).wantToken
                (chain.orderBook_ id).wantAmount)) := by
  induction ids with
  | nil => intro w; simp
  | cons id rest ih =>
    intro w
    rw [List.foldl_cons, ih, loadOrder_orderBook]
    cases h : (chain.orderBook_ id).filled <;> simp [h, List.filter_cons]


/-! ## The order-book rows -/

/-- C1: `appendOrder` adds exactly one row, at the end of the order book; its five
cells are the offer symbol, the displayed offer amount, the want symbol, the
displayed want amount and the maker, each symbol being the `tokenAddressToSymbol`
entry of the token address; the rows already there, and the rest of the window,
are unchanged, and the row is what the appended markup writes. -/
theorem appendOrder_appends_one_row (rt : Runtime) (maker offerToken : String)
    (offerAmount : ℕ) (wantToken : String) (wantAmount : ℕ) (w : Window) :
    ∃ r : Row,
      (appendOrder rt maker offerToken offerAmount wantToken wantAmount w).orderBook
          = w.orderBook ++ [r]
      ∧ r.cells =
          [propertyToString (tokenAddressToSymbol offerToken),
           (if tokenAddressToSymbol offerToken = some "ETH"
              then rt.numberToString (divideNumbers (toNumber offerAmount) (10 ^ 18))
              else rt.bigNumberToString offerAmount),
           propertyToString (tokenAddressToSymbol wantToken),
           (if tokenAddressToSymbol offerToken ≠ some "ETH"
                ∧ tokenAddressToSymbol wantToken = some "ETH"
              then rt.numberToString (divideNumbers (toNumber wantAmount) (10 ^ 18))
              else rt.bigNumberToString wantAmount),
           maker]
      ∧ r.cells.length = 5
      ∧ r.markup = orderMarkup rt maker offerToken offerAmount wantToken wantAmount
      ∧ appendOrder rt maker offerToken offerAmount wantToken wantAmount w
          = { w with orderBook := w.orderBook ++ [r] } := by
  refine ⟨orderRow rt maker offerToken offerAmount wantToken wantAmount, rfl, ?_, rfl,
    (orderMarkup_eq_markup rt maker offerToken offerAmount wantToken wantAmount).symm, rfl⟩
  unfold orderRow adjustedAmounts
  by_cases ho : tokenAddressToSymbol offerToken = some "ETH"
  · simp [ho]
  · by_cases hw : tokenAddressToSymbol wantToken = some "ETH"
    · simp [ho, hw]
    · simp [ho, hw]

/-- C2: at an order whose offer token and want token are both ether, the offer amount
is displayed divided by `10^18` but the want amount is displayed as received, in
wei, under the symbol ETH. -/
theorem appendOrder_both_ether_want_in_wei :
    (orderRow sampleRuntime "0x00a329c0648769a73afac7f9381e08fb43dbea72"
        etherAddress (10 ^ 18) etherAddress (2 * 10 ^ 18)).cells
      = ["ETH", "1", "ETH", "2000000000000000000",
         "0x00a329c0648769a73afac7f9381e08fb43dbea72"]
    ∧ sampleRuntime.numberToString (((2 * 10 ^ 18 : ℕ) : ℚ) / 10 ^ 18) = "2" := by
  have h1 : divideNumbers (toNumber (10 ^ 18)) (10 ^ 18) = 1 := divideNumbers_one_ether
  have h2 : ((2 * 10 ^ 18 : ℕ) : ℚ) / 10 ^ 18 = 2 := by norm_num
  constructor
  · simp only [orderRow, adjustedAmounts, tokenAddressToSymbol, etherAddress,
      propertyToString, sampleRuntime, h1]
    rfl
  · simp only [sampleRuntime, h2]
    rfl

/-- C3: the row id identifies the order parameters. For token addresses that are
`0x` followed by 40 hexadecimal digits and amounts written in decimal digits, two
orders with the same row id have the same offer token, offer amount, want token
and want amount. -/
theorem rowId_injective (offerToken offerAmount wantToken wantAmount : String)
    (offerToken' offerAmount' wantToken' wantAmount' : String)
    (hot : isAddress offerToken = true) (hot' : isAddress offerToken' = true)
    (hwt : isAddress wantToken = true) (hwt' : isAddress wantToken' = true)
    (hoa : isDecimal offerAmount = true) (hoa' : isDecimal offerAmount' = true)
    (_hwa : isDecimal wantAmount = true) (_hwa' : isDecimal wantAmount' = true)
    (h : rowId offerToken offerAmount wantToken wantAmount
          = rowId offerToken' offerAmount' wantToken' wantAmount') :
    offerToken = offerToken' ∧ offerAmount = offerAmount'
      ∧ wantToken = wantToken' ∧ wantAmount = wantAmount' := by
  have hd := congrArg String.data h
  simp only [rowId, String.data_append, List.append_assoc] at hd
  have hlen : offerToken.data.length = offerToken'.data.length := by
    rw [isAddress_length hot, isAddress_length hot']
  obtain ⟨e1, rest1⟩ := List.append_inj hd hlen
  obtain ⟨hex, hs, _⟩ := isAddress_data hwt
  obtain ⟨hex', hs', _⟩ := isAddress_data hwt'
  have e2 : offerAmount.data = offerAmount'.data := by
    have r := rest1
    rw [hs, hs'] at r
    exact digits_before_address (isDecimal_all hoa) (isDecimal_all hoa') r
  rw [e2] at rest1
  have rest2 := List.append_cancel_left rest1
  have hlen2 : wantToken.data.length = wantToken'.data.length := by
    rw [isAddress_length hwt, isAddress_length hwt']
  obtain ⟨e3, e4⟩ := List.append_inj rest2 hlen2
  exact ⟨String.ext e1, String.ext e2, String.ext e3, String.ext e4⟩

theorem rowId_injective_witness :
    (isAddress etherAddress = true ∧ isAddress tokenAddress = true
      ∧ isDecimal "1" = true ∧ isDecimal "100" = true
      ∧ rowId etherAddress "1" tokenAddress "100" = rowId etherAddress "1" tokenAddress "100")
    ∧ (etherAddress = etherAddress ∧ "1" = "1" ∧ tokenAddress = tokenAddress ∧ "100" = "100") :=
  ⟨⟨by decide, by decide, by decide, by decide, rfl⟩,
   rowId_injective etherAddress "1" tokenAddress "100" etherAddress "1" tokenAddress "100"
     (by decide) (by decide) (by decide) (by decide) (by decide) (by decide) (by decide)
     (by decide) rfl⟩

/-- On `logOrderExecuted` the order book is changed by `$(id).remove()` alone. -/
theorem executed_orderBook (rt : Runtime) (chain : Chain) (res : Log) (w : Window)
    (hev : res.event = "logOrderExecuted") :
    (exchangeListener rt chain res w).orderBook
      = (jqueryRemove (executedSelector rt res.args) w).orderBook := by
  have hne : ¬ ("logOrderExecuted" = "logOrderSubmitted") := by decide
  simp only [exchangeListener, hev, hne, if_false, if_true]
  unfold jqueryRemove
  split
  · split
    · simp [updateTokenBalance_orderBook, updateETHBalance_orderBook,
        openTransactionSuccessModal]
    · simp [updateTokenBalance_orderBook, updateETHBalance_orderBook,
        openTransactionSuccessModal]
  · simp [updateTokenBalance_orderBook, updateETHBalance_orderBook,
      openTransactionSuccessModal]

/-- On `logOrderExecuted` with an id of letters, digits, `_` and `-`, the first row
with the id of the order is removed, and that row alone. -/
theorem executed_removes_first_row (rt : Runtime) (chain : Chain) (res : Log) (w : Window)
    (hev : res.event = "logOrderExecuted")
    (hplain : isPlainId (rowId res.args.offerToken (rt.bigNumberToString res.args.offerAmount)
      res.args.wantToken (rt.bigNumberToString res.args.wantAmount)).data = true) :
    (exchangeListener rt chain res w).orderBook
      = w.orderBook.eraseP (fun r =>
          r.id = rowId res.args.offerToken (rt.bigNumberToString res.args.offerAmount)
            res.args.wantToken (rt.bigNumberToString res.args.wantAmount)) := by
  rw [executed_orderBook rt chain res w hev, executedSelector_eq, jqueryRemove_hash _ _ hplain]
  simp [String.ext_iff]

/-- On `logOrderExecuted` with an id that holds another character, such as the `+` of
an amount in exponent notation, no row is removed. -/
theorem executed_removes_nothing (rt : Runtime) (chain : Chain) (res : Log) (w : Window)
    (hev : res.event = "logOrderExecuted")
    (hplain : isPlainId (rowId res.args.offerToken (rt.bigNumberToString res.args.offerAmount)
      res.args.wantToken (rt.bigNumberToString res.args.wantAmount)).data = false) :
    (exchangeListener rt chain res w).orderBook = w.orderBook := by
  rw [executed_orderBook rt chain res w hev, executedSelector_eq, jqueryRemove_other _ _ hplain]

/-- C4: the selector built on `logOrderExecuted` is `#` followed by the row id of the
order, but a row with that id stays in the table when the table shows the order
twice: after `appendOrder` twice and a `logOrderExecuted` event with the same four
values, one row with the id is left, where the comment of the script says
`Remove row if order executed`. -/
theorem executed_leaves_duplicate_row :
    ((exchangeListener sampleRuntime sampleChain
        { event := "logOrderExecuted", args := sampleArgs, transactionHash := "0xaa" }
        (appendOrder sampleRuntime sampleArgs.maker sampleArgs.offerToken
          sampleArgs.offerAmount sampleArgs.wantToken sampleArgs.wantAmount
          (appendOrder sampleRuntime sampleArgs.maker sampleArgs.offerToken
            sampleArgs.offerAmount sampleArgs.wantToken sampleArgs.wantAmount
            blankWindow))).orderBook.map Row.id)
      = ["0x00000000000000000000000000000000000000001"
          ++ "0x87dec673238cd9fe9bc1479c21f9f8165bc3879b100"]
    ∧ executedSelector sampleRuntime sampleArgs
      = "#0x00000000000000000000000000000000000000001"
          ++ "0x87dec673238cd9fe9bc1479c21f9f8165bc3879b100" := by
  constructor <;> rfl

/-- An order of `10^21` wei has an id with a `+` in it, the amount being written
`1e+21`: the one row of the order stays in the table after `logOrderExecuted`. -/
theorem executed_keeps_row_of_large_amount :
    executedSelector bigNumberRuntime largeArgs
      = "#0x0000000000000000000000000000000000000000" ++ "1e+21"
          ++ "0x87dec673238cd9fe9bc1479c21f9f8165bc3879b" ++ "5"
    ∧ ((exchangeListener bigNumberRuntime sampleChain
        { event := "logOrderExecuted", args := largeArgs, transactionHash := "0xaa" }
        (appendOrder bigNumberRuntime largeArgs.maker largeArgs.offerToken
          largeArgs.offerAmount largeArgs.wantToken largeArgs.wantAmount
          blankWindow)).orderBook.map Row.id)
      = ["0x0000000000000000000000000000000000000000" ++ "1e+21"
          ++ "0x87dec673238cd9fe9bc1479c21f9f8165bc3879b" ++ "5"] := by
  constructor <;> rfl

/-- C5: `loadOrderBook`, its callbacks run in the order of the ids, appends one row
for each listed id whose order is not filled, built from that order's maker,
offerToken, offerAmount, wantToken and wantAmount, in the order of the id list,
and no row for an id whose order is filled. -/
theorem loadOrderBook_appends_unfilled (rt : Runtime) (chain : Chain) (w : Window) :
    (loadOrderBook rt chain w).orderBook
      = w.orderBook ++
          ((chain.getOrderBookIds.filter (fun id => (chain.orderBook_ id).filled = false)).map
            (fun id => orderRow rt (chain.orderBook_ id).maker (chain.orderBook_ id).offerToken
              (chain.orderBook_ id).offerAmount (chain.orderBook_ id).wantToken
              (chain.orderBook_ id).wantAmount)) := by
  unfold loadOrderBook
  rw [foldl_loadOrder_orderBook]
  simp

/-- C6: when `getOrderBookIds` lists the same id twice and `orderBook_` maps it to an
unfilled order, `loadOrderBook` appends that order twice: the table ends with two
rows that carry the same row id. -/
theorem loadOrderBook_duplicate_id (rt : Runtime) (chain : Chain) (w : Window) (id : String)
    (hids : chain.getOrderBookIds = [id, id])
    (hunfilled : (chain.orderBook_ id).filled = false) :
    ∃ r₁ r₂ : Row,
      (loadOrderBook rt chain w).orderBook = w.orderBook ++ [r₁, r₂]
      ∧ r₁.id = r₂.id
      ∧ r₁ = orderRow rt (chain.orderBook_ id).maker (chain.orderBook_ id).offerToken
              (chain.orderBook_ id).offerAmount (chain.orderBook_ id).wantToken
              (chain.orderBook_ id).wantAmount
      ∧ r₂ = r₁ := by
  refine ⟨_, _, ?_, rfl, rfl, rfl⟩
  unfold loadOrderBook
  rw [foldl_loadOrder_orderBook, hids]
  simp [List.filter_cons, hunfilled]

theorem loadOrderBook_duplicate_id_witness :
    ∃ r₁ r₂ : Row,
      (loadOrderBook sampleRuntime sampleChain blankWindow).orderBook
        = blankWindow.orderBook ++ [r₁, r₂]
      ∧ r₁.id = r₂.id
      ∧ r₁ = orderRow sampleRuntime (sampleChain.orderBook_ "0x01").maker
              (sampleChain.orderBook_ "0x01").offerToken
              (sampleChain.orderBook_ "0x01").offerAmount
              (sampleChain.orderBook_ "0x01").wantToken
              (sampleChain.orderBook_ "0x01").wantAmount
      ∧ r₂ = r₁ :=
  loadOrderBook_duplicate_id sampleRuntime sampleChain blankWindow "0x01" rfl rfl

/-- C7: on a `logOrderSubmitted` event the exchange listener appends exactly one row,
the row `appendOrder` builds from the event's maker, offerToken, offerAmount,
wantToken and wantAmount in that order, and opens the success modal with the
message `Order Submitted.` and the event's transaction hash. -/
theorem submitted_appends_row_and_opens_modal (rt : Runtime) (chain : Chain) (res : Log)
    (w : Window) (hev : res.event = "logOrderSubmitted") :
    (exchangeListener rt chain res w).orderBook
        = (appendOrder rt res.args.maker res.args.offerToken res.args.offerAmount
            res.args.wantToken res.args.wantAmount w).orderBook
      ∧ (exchangeListener rt chain res w).orderBook
        = w.orderBook ++ [orderRow rt res.args.maker res.args.offerToken res.args.offerAmount
            res.args.wantToken res.args.wantAmount]
      ∧ (exchangeListener rt chain res w).txHash
        = ["<p>" ++ "Order Submitted." ++ "</p>", "</br><p>Here is your transaction hash:</p>",
           "<a href=" ++ ("https://kovan.etherscan.io/tx/" ++ res.transactionHash) ++ ">"
             ++ res.transactionHash ++ "</a>"]
      ∧ (exchangeListener rt chain res w).txHash
        = (openTransactionSuccessModal "Order Submitted." res.transactionHash w).txHash
      ∧ (exchangeListener rt chain res w).successModal = true := by
  have hbook : (exchangeListener rt chain res w).orderBook
      = w.orderBook ++ [orderRow rt res.args.maker res.args.offerToken res.args.offerAmount
            res.args.wantToken res.args.wantAmount] := by
    simp only [exchangeListener, hev, if_true]
    simp [openTransactionSuccessModal, appendOrder, updateETHBalance_orderBook]
  have htx : (exchangeListener rt chain res w).txHash
      = (openTransactionSuccessModal "Order Submitted." res.transactionHash w).txHash := by
    simp only [exchangeListener, hev, if_true]
    simp [openTransactionSuccessModal]
  refine ⟨hbook, hbook, ?_, htx, ?_⟩
  · rw [htx]
    exact openTransactionSuccessModal_txHash _ _ _
  · simp only [exchangeListener, hev, if_true]
    simp [openTransactionSuccessModal]

theorem submitted_appends_row_and_opens_modal_witness :
    (exchangeListener sampleRuntime sampleChain
        { event := "logOrderSubmitted", args := sampleArgs, transactionHash := "0xaa" }
        blankWindow).txHash
      = ["<p>" ++ "Order Submitted." ++ "</p>", "</br><p>Here is your transaction hash:</p>",
         "<a href=" ++ ("https://kovan.etherscan.io/tx/" ++ "0xaa") ++ ">" ++ "0xaa" ++ "</a>"] :=
  (submitted_appends_row_and_opens_modal sampleRuntime sampleChain
    { event := "logOrderSubmitted", args := sampleArgs, transactionHash := "0xaa" }
    blankWindow rfl).2.2.1

/-- C8: for a balance in wei returned without error, `updateETHBalance` sets the ether
balance display to the Number `balance.toNumber() / 10**18` followed by ` ETH`: the
balance rounded to the nearest double, divided by `10^18` and rounded to the nearest
double again, which is within one part in `2^51` of the balance divided by `10^18`;
when `getBalance` returns an error the display is left unchanged. -/
theorem updateETHBalance_display (rt : Runtime) (chain failing : Chain) (user : String)
    (balance : ℕ) (w : Window)
    (hok : chain.getBalance user = some balance)
    (herr : failing.getBalance user = none) :
    (updateETHBalance rt chain user w).etherBalance
        = rt.numberToString (divideNumbers (toNumber balance) (10 ^ 18)) ++ " ETH"
      ∧ |divideNumbers (toNumber balance) (10 ^ 18) - (balance : ℚ) / 10 ^ 18|
          ≤ (balance : ℚ) / 10 ^ 18 / 2 ^ 51
      ∧ (updateETHBalance rt failing user w).etherBalance = w.etherBalance := by
  unfold updateETHBalance
  rw [hok, herr]
  exact ⟨rfl, wei_quotient_error balance, rfl⟩

theorem updateETHBalance_display_witness :
    (updateETHBalance sampleRuntime sampleChain "0x00a329c0648769a73afac7f9381e08fb43dbea72"
        blankWindow).etherBalance
        = sampleRuntime.numberToString (divideNumbers (toNumber (2 * 10 ^ 18)) (10 ^ 18))
            ++ " ETH"
      ∧ |divideNumbers (toNumber (2 * 10 ^ 18)) (10 ^ 18) - ((2 * 10 ^ 18 : ℕ) : ℚ) / 10 ^ 18|
          ≤ ((2 * 10 ^ 18 : ℕ) : ℚ) / 10 ^ 18 / 2 ^ 51
      ∧ (updateETHBalance sampleRuntime failingChain
          "0x00a329c0648769a73afac7f9381e08fb43dbea72" blankWindow).etherBalance
        = blankWindow.etherBalance :=
  updateETHBalance_display sampleRuntime sampleChain failingChain
    "0x00a329c0648769a73afac7f9381e08fb43dbea72" (2 * 10 ^ 18) blankWindow rfl rfl

/-- C8, as stated, fails: for a balance of 2363 ether, `2363 * 10^18` wei, the display
is not the text of the balance divided by `10^18`, which is 2363, but the text of
the double `2363 + 2^-41`, which JavaScript writes `2363.0000000000005`. -/
theorem updateETHBalance_rounds_2363_ether :
    toNumber (2363 * 10 ^ 18) = 2363 * 10 ^ 18 + 262144
    ∧ divideNumbers (toNumber (2363 * 10 ^ 18)) (10 ^ 18) = 2363 + 1 / 2 ^ 41
    ∧ ((2363 * 10 ^ 18 : ℕ) : ℚ) / 10 ^ 18 = 2363
    ∧ (updateETHBalance sampleRuntime wealthyChain "0x00a329c0648769a73afac7f9381e08fb43dbea72"
        blankWindow).etherBalance
      = sampleRuntime.numberToString (2363 + 1 / 2 ^ 41) ++ " ETH"
    ∧ (updateETHBalance sampleRuntime wealthyChain "0x00a329c0648769a73afac7f9381e08fb43dbea72"
        blankWindow).etherBalance
      ≠ sampleRuntime.numberToString (((2363 * 10 ^ 18 : ℕ) : ℚ) / 10 ^ 18) ++ " ETH" := by
  have ht : toNumber (2363 * 10 ^ 18) = 2363 * 10 ^ 18 + 262144 := by
    rw [@toNumber_of_log2 (2363 * 10 ^ 18) 71 (by norm_num) (by norm_num)]
    decide
  have hd : divideNumbers (toNumber (2363 * 10 ^ 18)) (10 ^ 18) = 2363 + 1 / 2 ^ 41 := by
    rw [ht]
    have he : binaryExponent (2363 * 10 ^ 18 + 262144) (10 ^ 18) = 11 := by
      rw [@binaryExponent_of_log2 (2363 * 10 ^ 18 + 262144) (10 ^ 18) 71 59 (by norm_num)
        (by norm_num) (by norm_num) (by norm_num)]
      decide
    simp only [divideNumbers, he]
    have hr : roundHalfEven ((2363 * 10 ^ 18 + 262144) * 2 ^ (-((11 : ℤ) - 52)).toNat)
        (10 ^ 18 * 2 ^ ((11 : ℤ) - 52).toNat) = 5196291952869377 := by decide
    rw [hr]
    norm_num
  have hq : ((2363 * 10 ^ 18 : ℕ) : ℚ) / 10 ^ 18 = 2363 := by norm_num
  have hshown : (updateETHBalance sampleRuntime wealthyChain
      "0x00a329c0648769a73afac7f9381e08fb43dbea72" blankWindow).etherBalance
      = sampleRuntime.numberToString (2363 + 1 / 2 ^ 41) ++ " ETH" := by
    simp only [updateETHBalance, wealthyChain, hd]
  refine ⟨ht, hd, hq, hshown, ?_⟩
  rw [hshown, hq]
  have hden : ((2363 : ℚ) + 1 / 2 ^ 41).den = 2199023255552 := by norm_num
  have hnum : ((2363 : ℚ) + 1 / 2 ^ 41).num = 5196291952869377 := by norm_num
  have hden1 : (2363 : ℚ).den = 1 := rfl
  have hnum1 : (2363 : ℚ).num = 2363 := rfl
  simp only [sampleRuntime, hden, hnum, hden1, hnum1]
  decide

/-- C9: for a token balance and a symbol returned by the token contract,
`updateTokenBalance` sets the token balance display to the balance, a single space
and the symbol; the balance is written as returned, with no scaling by decimals. -/
theorem updateTokenBalance_display (rt : Runtime) (chain : Chain) (user symbol : String)
    (balance : ℕ) (w : Window)
    (hbalance : chain.balanceOf user = some balance)
    (hsymbol : chain.symbol = some symbol) :
    (updateTokenBalance rt chain user w).blgBalance
      = rt.numberToString (balance : ℚ) ++ " " ++ symbol := by
  unfold updateTokenBalance
  rw [hbalance, hsymbol]
  rfl

theorem updateTokenBalance_display_witness :
    (updateTokenBalance sampleRuntime sampleChain "0x00a329c0648769a73afac7f9381e08fb43dbea72"
        blankWindow).blgBalance
      = sampleRuntime.numberToString ((7 : ℕ) : ℚ) ++ " " ++ "BLG" :=
  updateTokenBalance_display sampleRuntime sampleChain
    "0x00a329c0648769a73afac7f9381e08fb43dbea72" "BLG" 7 blankWindow rfl rfl

/-- C10: on a `LogTokensMinted` event received without error the token listener opens
the `Tokens minted.` success modal with the event's transaction hash whatever the
recipient, and refreshes the ether and token balance displays (calls
`updateETHBalance` and `updateTokenBalance` for the default account) if and only
if the event's `to` argument equals the default account. -/
theorem tokensMinted_refreshes_iff_recipient (rt : Runtime) (chain : Chain) (res : Log)
    (w : Window) :
    (tokensMintedListener rt chain none res w).txHash
        = ["<p>" ++ "Tokens minted." ++ "</p>", "</br><p>Here is your transaction hash:</p>",
           "<a href=" ++ ("https://kovan.etherscan.io/tx/" ++ res.transactionHash) ++ ">"
             ++ res.transactionHash ++ "</a>"]
      ∧ (tokensMintedListener rt chain none res w).successModal = true
      ∧ (tokensMintedListener rt chain none res w
          = updateTokenBalance rt chain w.defaultAccount
              (updateETHBalance rt chain w.defaultAccount
                (openTransactionSuccessModal "Tokens minted." res.transactionHash w))
          ∧ (tokensMintedListener rt chain none res w).calls
              = w.calls ++ [Call.getBalance w.defaultAccount,
                  Call.balanceOf w.defaultAccount, Call.symbol]
        ↔ res.args.to_ = w.defaultAccount)
      ∧ (tokensMintedListener rt chain none res w
          = openTransactionSuccessModal "Tokens minted." res.transactionHash w
          ∧ (tokensMintedListener rt chain none res w).calls = w.calls
          ∧ (tokensMintedListener rt chain none res w).etherBalance = w.etherBalance
          ∧ (tokensMintedListener rt chain none res w).blgBalance = w.blgBalance
        ↔ res.args.to_ ≠ w.defaultAccount) := by
  have hd : (openTransactionSuccessModal "Tokens minted." res.transactionHash w).defaultAccount
      = w.defaultAccount := rfl
  have hc : (openTransactionSuccessModal "Tokens minted." res.transactionHash w).calls
      = w.calls := rfl
  by_cases hto : res.args.to_ = w.defaultAccount
  · have hres : tokensMintedListener rt chain none res w
        = updateTokenBalance rt chain w.defaultAccount
            (updateETHBalance rt chain w.defaultAccount
              (openTransactionSuccessModal "Tokens minted." res.transactionHash w)) := by
      simp [tokensMintedListener, hd, hto, updateETHBalance_defaultAccount]
    have hcalls : (tokensMintedListener rt chain none res w).calls
        = w.calls ++ [Call.getBalance w.defaultAccount,
            Call.balanceOf w.defaultAccount, Call.symbol] := by
      rw [hres, updateTokenBalance_calls, updateETHBalance_calls, hc]
      simp
    refine ⟨?_, ?_, ?_, ?_⟩
    · rw [hres, (updateTokenBalance_modal _ _ _ _).1, (updateETHBalance_modal _ _ _ _).1]
      exact openTransactionSuccessModal_txHash _ _ _
    · rw [hres, (updateTokenBalance_modal _ _ _ _).2, (updateETHBalance_modal _ _ _ _).2]
      rfl
    · exact ⟨fun _ => hto, fun _ => ⟨hres, hcalls⟩⟩
    · constructor
      · intro h
        have h2 := h.2.1
        rw [hcalls] at h2
        simp at h2
      · intro h
        exact absurd hto h
  · have hres : tokensMintedListener rt chain none res w
        = openTransactionSuccessModal "Tokens minted." res.transactionHash w := by
      simp [tokensMintedListener, hd, hto]
    refine ⟨?_, ?_, ?_, ?_⟩
    · rw [hres]
      exact openTransactionSuccessModal_txHash _ _ _
    · rw [hres]
      rfl
    · constructor
      · intro h
        have h2 := h.2
        rw [hres, hc] at h2
        simp at h2
      · intro h
        exact absurd h hto
    · exact ⟨fun _ => hto, fun _ => ⟨hres, by rw [hres, hc], by rw [hres]; rfl,
        by rw [hres]; rfl⟩⟩

/-! ## The modal, the bindings and the ABIs -/

/-- C11: whatever the transaction-hash area held before, `openTransactionSuccessModal`
leaves exactly three fragments in it: the paragraph of the message, the paragraph
`Here is your transaction hash:` and a link with text `tx` and target
`https://kovan.etherscan.io/tx/` followed by `tx`; calling it twice with the same
arguments leaves what calling it once leaves. -/
theorem openTransactionSuccessModal_three_fragments (msg tx : String) (w : Window) :
    (openTransactionSuccessModal msg tx w).txHash
        = ["<p>" ++ msg ++ "</p>", "</br><p>Here is your transaction hash:</p>",
           "<a href=" ++ ("https://kovan.etherscan.io/tx/" ++ tx) ++ ">" ++ tx ++ "</a>"]
      ∧ (openTransactionSuccessModal msg tx w).txHash.length = 3
      ∧ (openTransactionSuccessModal msg tx w).successModal = true
      ∧ openTransactionSuccessModal msg tx (openTransactionSuccessModal msg tx w)
          = openTransactionSuccessModal msg tx w := by
  refine ⟨openTransactionSuccessModal_txHash msg tx w, ?_, rfl, ?_⟩
  · rw [openTransactionSuccessModal_txHash]
    rfl
  · simp [openTransactionSuccessModal]

theorem updateTokenBalance_defaultAccount (rt : Runtime) (chain : Chain) (user : String)
    (w : Window) :
    (updateTokenBalance rt chain user w).defaultAccount = w.defaultAccount := by
  unfold updateTokenBalance
  cases chain.balanceOf user <;> rfl

theorem foldl_loadOrder_defaultAccount (rt : Runtime) (chain : Chain) (ids : List String) :
    ∀ w : Window, (ids.foldl (loadOrder rt chain) w).defaultAccount = w.defaultAccount := by
  induction ids with
  | nil => intro w; rfl
  | cons id rest ih =>
    intro w
    rw [List.foldl_cons, ih]
    cases h : (chain.orderBook_ id).filled <;> simp [loadOrder, h, appendOrder]

theorem loadOrderBook_defaultAccount (rt : Runtime) (chain : Chain) (w : Window) :
    (loadOrderBook rt chain w).defaultAccount = w.defaultAccount := by
  unfold loadOrderBook
  rw [foldl_loadOrder_defaultAccount]

/-- With an account, `loadWeb3` runs to its end. -/
theorem loadWeb3_connected (rt : Runtime) (chain : Chain) (provider : Provider)
    (account : String) (others : List String) (s : Session)
    (hc : provider.isConnected = true) (hacc : provider.accounts = account :: others) :
    loadWeb3 rt chain provider s
      = { window :=
            loadOrderBook rt chain
              (updateTokenBalance rt chain account
                (updateETHBalance rt chain account
                  { s.window with defaultAccount := account }))
          token := some { abi := tokenAbi, address := tokenAddress }
          hub := some { abi := hubAbi, address := hubAddress }
          exchange := some { abi := exchangeAbi, address := exchangeAddress }
          watchers := s.watchers ++ [Watcher.tokenLogTokensMinted,
            Watcher.tokenLogErrorString, Watcher.exchangeAllEvents] } := by
  simp only [loadWeb3, hc, hacc, if_true, initTokenListeners, initExchangeListeners,
    updateETHBalance_defaultAccount, List.append_assoc, List.cons_append, List.nil_append,
    List.headD_cons]

/-- Without an account, `loadWeb3` stops after the listeners are installed. -/
theorem loadWeb3_without_account (rt : Runtime) (chain : Chain) (provider : Provider)
    (s : Session) (hc : provider.isConnected = true) (hacc : provider.accounts = []) :
    loadWeb3 rt chain provider s
      = { window := { s.window with defaultAccount := "" }
          token := some { abi := tokenAbi, address := tokenAddress }
          hub := some { abi := hubAbi, address := hubAddress }
          exchange := some { abi := exchangeAbi, address := exchangeAddress }
          watchers := s.watchers ++ [Watcher.tokenLogTokensMinted,
            Watcher.tokenLogErrorString, Watcher.exchangeAllEvents] } := by
  simp only [loadWeb3, hc, hacc, if_true, initTokenListeners, initExchangeListeners,
    List.append_assoc, List.cons_append, List.nil_append, List.headD_nil]

/-- The globals that `loadWeb3` binds when the provider is connected, whatever the
accounts. -/
theorem loadWeb3_bindings (rt : Runtime) (chain : Chain) (provider : Provider) (s : Session)
    (hc : provider.isConnected = true) :
    (loadWeb3 rt chain provider s).token = some { abi := tokenAbi, address := tokenAddress }
      ∧ (loadWeb3 rt chain provider s).hub = some { abi := hubAbi, address := hubAddress }
      ∧ (loadWeb3 rt chain provider s).exchange
          = some { abi := exchangeAbi, address := exchangeAddress }
      ∧ (loadWeb3 rt chain provider s).watchers
          = s.watchers ++ [Watcher.tokenLogTokensMinted, Watcher.tokenLogErrorString,
              Watcher.exchangeAllEvents] := by
  cases hacc : provider.accounts with
  | nil =>
    rw [loadWeb3_without_account rt chain provider s hc hacc]
    exact ⟨rfl, rfl, rfl, rfl⟩
  | cons account others =>
    rw [loadWeb3_connected rt chain provider account others s hc hacc]
    exact ⟨rfl, rfl, rfl, rfl⟩

/-- When the provider reports connected and has an account, `loadWeb3` binds
`window.token` to the Token ABI at `tokenAddress`, `window.hub` to the Hub ABI at
`hubAddress` and `window.exchange` to the Exchange ABI at `exchangeAddress`, each
address being the one deployed for that contract; it sets the default account to
the first account, installs the listeners and then loads the ether balance, the
token balance and the order book. When the provider is not connected nothing is
bound, no listener is installed and the page is unchanged. -/
theorem loadWeb3_with_account (rt : Runtime) (chain : Chain)
    (provider offline : Provider) (account : String) (others : List String) (s : Session)
    (hc : provider.isConnected = true) (hacc : provider.accounts = account :: others)
    (hoff : offline.isConnected = false) :
    ((loadWeb3 rt chain provider s).token = some { abi := tokenAbi, address := tokenAddress }
      ∧ (loadWeb3 rt chain provider s).hub = some { abi := hubAbi, address := hubAddress }
      ∧ (loadWeb3 rt chain provider s).exchange
          = some { abi := exchangeAbi, address := exchangeAddress }
      ∧ deployedAddress "Token" = some tokenAddress
      ∧ deployedAddress "Hub" = some hubAddress
      ∧ deployedAddress "Exchange" = some exchangeAddress
      ∧ (loadWeb3 rt chain provider s).window.defaultAccount = account
      ∧ (loadWeb3 rt chain provider s).watchers
          = s.watchers ++ [Watcher.tokenLogTokensMinted, Watcher.tokenLogErrorString,
              Watcher.exchangeAllEvents]
      ∧ (loadWeb3 rt chain provider s).window
          = loadOrderBook rt chain
              (updateTokenBalance rt chain account
                (updateETHBalance rt chain account
                  { s.window with defaultAccount := account })))
    ∧ loadWeb3 rt chain offline s = s := by
  refine ⟨?_, ?_⟩
  · rw [loadWeb3_connected rt chain provider account others s hc hacc]
    refine ⟨rfl, rfl, rfl, rfl, rfl, rfl, ?_, rfl, rfl⟩
    rw [loadOrderBook_defaultAccount, updateTokenBalance_defaultAccount,
      updateETHBalance_defaultAccount]
  · simp [loadWeb3, hoff]

/-- C12: with a provider that reports connected and has no account, `loadWeb3` binds
the three contracts and installs the listeners, and then loads nothing: no call is
sent, neither balance display is set and the order book stays empty, where the
comment of the script says `Load balances for the user as well as the order book
contents`, and where the same chain read with an account gives two rows. -/
theorem loadWeb3_without_account_loads_nothing :
    loadWeb3 sampleRuntime sampleChain { isConnected := true, accounts := [] } blankSession
      = { window := { blankWindow with defaultAccount := "" }
          token := some { abi := tokenAbi, address := tokenAddress }
          hub := some { abi := hubAbi, address := hubAddress }
          exchange := some { abi := exchangeAbi, address := exchangeAddress }
          watchers := [Watcher.tokenLogTokensMinted, Watcher.tokenLogErrorString,
            Watcher.exchangeAllEvents] }
    ∧ (loadWeb3 sampleRuntime sampleChain { isConnected := true, accounts := [] }
        blankSession).window.calls = []
    ∧ (loadWeb3 sampleRuntime sampleChain { isConnected := true, accounts := [] }
        blankSession).window.orderBook = []
    ∧ (loadWeb3 sampleRuntime sampleChain { isConnected := true, accounts := [] }
        blankSession).window.etherBalance = ""
    ∧ (loadWeb3 sampleRuntime sampleChain { isConnected := true, accounts := [] }
        blankSession).window.blgBalance = ""
    ∧ (loadWeb3 sampleRuntime sampleChain
        { isConnected := true, accounts := ["0x00a329c0648769a73afac7f9381e08fb43dbea72"] }
        blankSession).window.orderBook.length = 2
    ∧ (loadWeb3 sampleRuntime sampleChain
        { isConnected := true, accounts := ["0x00a329c0648769a73afac7f9381e08fb43dbea72"] }
        blankSession).window.blgBalance = "7 BLG" := by
  refine ⟨rfl, rfl, rfl, rfl, rfl, rfl, rfl⟩

/-- C13: every contract function the script calls is declared, with the arity and
argument types used, in the ABI that `loadWeb3` binds to that contract, and every
event it listens to is declared there with each argument the listeners read among
its inputs. -/
theorem members_used_are_declared (rt : Runtime) (chain : Chain) (accounts : List String)
    (s : Session) :
    (∀ u ∈ functionsUsed, ∃ c : Contract,
        (loadWeb3 rt chain { isConnected := true, accounts := accounts } s).contract u.1
          = some c
        ∧ declaresFunction c.abi u.2.1 u.2.2 = true)
    ∧ (∀ u ∈ eventsUsed, ∃ c : Contract,
        (loadWeb3 rt chain { isConnected := true, accounts := accounts } s).contract u.1
          = some c
        ∧ declaresEvent c.abi u.2.1 u.2.2 = true) := by
  obtain ⟨htoken, hhub, hexchange, _⟩ :=
    loadWeb3_bindings rt chain { isConnected := true, accounts := accounts } s rfl
  have hf : ∀ u ∈ functionsUsed,
      declaresFunction (match u.1 with
        | Global.token => tokenAbi
        | Global.hub => hubAbi
        | Global.exchange => exchangeAbi) u.2.1 u.2.2 = true := by decide
  have he : ∀ u ∈ eventsUsed,
      declaresEvent (match u.1 with
        | Global.token => tokenAbi
        | Global.hub => hubAbi
        | Global.exchange => exchangeAbi) u.2.1 u.2.2 = true := by decide
  constructor
  · intro u hu
    have h := hf u hu
    rcases u with ⟨g, name, types⟩
    cases g
    · exact ⟨_, htoken, h⟩
    · exact ⟨_, hhub, h⟩
    · exact ⟨_, hexchange, h⟩
  · intro u hu
    have h := he u hu
    rcases u with ⟨g, name, args⟩
    cases g
    · exact ⟨_, htoken, h⟩
    · exact ⟨_, hhub, h⟩
    · exact ⟨_, hexchange, h⟩

/-- C14: the positions used to read an order agree with the Exchange ABI. The outputs
of `orderBook_` are declared in the order maker, offerToken, offerAmount,
wantToken, wantAmount, filled; so `order[0]` to `order[4]`, which `loadOrderBook`
passes to `appendOrder` as maker, offerToken, offerAmount, wantToken and
wantAmount, are those values and `order[5]` is the filled flag, and the test reads
the same positions for the same values. -/
theorem order_positions_agree_with_abi (rt : Runtime) (chain : Chain) (w : Window)
    (id : String) :
    (abiLookup exchangeAbi "function" "orderBook_").map AbiEntry.outputNames
        = [["maker", "offerToken", "offerAmount", "wantToken", "wantAmount", "filled"]]
      ∧ (∀ r ∈ loadOrderBookReads, ∀ o : Order,
          (orderArray exchangeAbi o).get? r.1 = some (o.output r.2))
      ∧ (∀ r ∈ testOrderReads, ∀ o : Order,
          (orderArray exchangeAbi o).get? r.1 = some (o.output r.2))
      ∧ (∀ o : Order, orderArray exchangeAbi o
          = [some (AbiValue.address o.maker), some (AbiValue.address o.offerToken),
             some (AbiValue.uint o.offerAmount), some (AbiValue.address o.wantToken),
             some (AbiValue.uint o.wantAmount), some (AbiValue.bool o.filled)])
      ∧ loadOrderArray rt (orderArray exchangeAbi (chain.orderBook_ id))
            { w with calls := w.calls ++ [Call.orderBook_ id] }
          = some (loadOrder rt chain w id) := by
  have harr : ∀ o : Order, orderArray exchangeAbi o
      = [some (AbiValue.address o.maker), some (AbiValue.address o.offerToken),
         some (AbiValue.uint o.offerAmount), some (AbiValue.address o.wantToken),
         some (AbiValue.uint o.wantAmount), some (AbiValue.bool o.filled)] := by
    intro o
    rfl
  refine ⟨by decide, ?_, ?_, harr, ?_⟩
  · intro r hr o
    rw [harr]
    simp only [loadOrderBookReads, List.mem_cons, List.mem_singleton, List.not_mem_nil,
      or_false] at hr
    rcases hr with h | h | h | h | h | h <;> subst h <;> rfl
  · intro r hr o
    rw [harr]
    simp only [testOrderReads, List.mem_cons, List.mem_singleton, List.not_mem_nil,
      or_false] at hr
    rcases hr with h | h | h | h | h | h <;> subst h <;> rfl
  · rw [harr]
    rfl

/-- C15: in the Exchange ABI `submitOrder(address _offerToken, uint256 _offerAmount,
address _wantToken, uint256 _wantAmount)` is the only function that is not
constant; it is payable and returns a single bool. No function for execution is
declared: the functions are getOrderBookIds, orderIds_, orderBook_ and submitOrder,
beside a payable fallback. The events `logOrderSubmitted` (maker, offerToken,
offerAmount, wantToken, wantAmount) and `logOrderExecuted` (maker, taker,
offerToken, offerAmount, wantToken, wantAmount) are declared with these inputs in
this order. -/
theorem exchangeAbi_submission_and_events :
    nonConstantFunctions exchangeAbi
        = [abiFunction "submitOrder" false true
            [param "_offerToken" "address", param "_offerAmount" "uint256",
             param "_wantToken" "address", param "_wantAmount" "uint256"]
            [param "" "bool"]]
      ∧ entryNames exchangeAbi "function"
        = [some "getOrderBookIds", some "orderIds_", some "orderBook_", some "submitOrder"]
      ∧ exchangeAbi.filter (fun e => e.type ≠ "function" ∧ e.type ≠ "event")
        = [abiFallback true]
      ∧ (abiLookup exchangeAbi "event" "logOrderSubmitted").map AbiEntry.inputNames
        = [["maker", "offerToken", "offerAmount", "wantToken", "wantAmount"]]
      ∧ (abiLookup exchangeAbi "event" "logOrderExecuted").map AbiEntry.inputNames
        = [["maker", "taker", "offerToken", "offerAmount", "wantToken", "wantAmount"]]
      ∧ entryNames exchangeAbi "event"
        = [some "logOrderSubmitted", some "logOrderExecuted", some "LogErrorString"] := by
  decide

/-- C16: the Token ABI declares `transfer(address,uint256)`, `approve(address,uint256)`
and `mint(address,uint256)`, each not constant, not payable and returning a single
bool; the constant `balanceOf(address)` and `allowance(address,address)`, each
returning a uint256; and the events Transfer, Approval and LogTokensMinted. -/
theorem tokenAbi_transfer_approve_mint :
    abiLookup tokenAbi "function" "transfer"
        = [abiFunction "transfer" false false
            [param "_to" "address", param "_value" "uint256"] [param "" "bool"]]
      ∧ abiLookup tokenAbi "function" "approve"
        = [abiFunction "approve" false false
            [param "_spender" "address", param "_amount" "uint256"] [param "" "bool"]]
      ∧ abiLookup tokenAbi "function" "mint"
        = [abiFunction "mint" false false
            [param "_to" "address", param "_value" "uint256"] [param "" "bool"]]
      ∧ abiLookup tokenAbi "function" "balanceOf"
        = [abiFunction "balanceOf" true false
            [param "_owner" "address"] [param "" "uint256"]]
      ∧ abiLookup tokenAbi "function" "allowance"
        = [abiFunction "allowance" true false
            [param "_owner" "address", param "_spender" "address"]
            [param "remaining" "uint256"]]
      ∧ (abiLookup tokenAbi "event" "Transfer").length = 1
      ∧ (abiLookup tokenAbi "event" "Approval").length = 1
      ∧ (abiLookup tokenAbi "event" "LogTokensMinted").length = 1 := by
  decide

/-- C17: in the Hub ABI `addUser(address,string,string,string)` and
`addResource(string)` are the only functions that are not constant; each is not
payable and returns a single bool. The events `LogUserAdded(user)` and
`LogResourceAdded(user, resourceUrl, blockNumber)` are declared. -/
theorem hubAbi_registration :
    nonConstantFunctions hubAbi
        = [abiFunction "addResource" false false
            [param "_resourceUrl" "string"] [param "" "bool"],
           abiFunction "addUser" false false
            [param "_userEOA" "address", param "_userName" "string",
             param "_position" "string", param "_location" "string"]
            [param "" "bool"]]
      ∧ (abiLookup hubAbi "event" "LogUserAdded").map AbiEntry.inputNames = [["user"]]
      ∧ (abiLookup hubAbi "event" "LogResourceAdded").map AbiEntry.inputNames
        = [["user", "resourceUrl", "blockNumber"]] := by
  decide

/-! ## The exchange contract -/

theorem funded_of (evm : Evm) (w : World) (sender offerToken : String) (offerAmount : ℕ)
    (hether : offerToken = etherAddress → offerAmount ≤ w.balance evm.this)
    (htoken : offerToken ≠ etherAddress →
      ∃ t, w.tokens offerToken = some t ∧ offerAmount ≤ t.balances_ sender) :
    funded evm sender offerToken offerAmount w = true := by
  unfold funded
  by_cases h : offerToken = etherAddress
  · simp [h, hether h]
  · obtain ⟨t, ht, hle⟩ := htoken h
    simp [h, ht, TokenState.balanceOf, hle]

/-- The message call of `submitOrder` when nothing matches: the order is recorded. -/
theorem submitOrder_records (evm : Evm) (w : World) (sender offerToken : String)
    (offerAmount : ℕ) (wantToken : String) (wantAmount : ℕ)
    (hoa : 0 < offerAmount) (hwa : 0 < wantAmount)
    (hfunded : funded evm sender offerToken offerAmount w = true)
    (hnomatch :
      (w.orderBook_ (evm.keccak256 wantToken wantAmount offerToken offerAmount)).active
        = false)
    (hnodup :
      (w.orderBook_ (evm.keccak256 offerToken offerAmount wantToken wantAmount)).active
        = false) :
    submitOrder evm sender offerToken offerAmount wantToken wantAmount w
      = some (true,
          [ExchangeEvent.logOrderSubmitted sender offerToken offerAmount wantToken wantAmount],
          World.mk w.balance w.tokens
            (Function.update w.orderBook_
              (evm.keccak256 offerToken offerAmount wantToken wantAmount)
              { maker := sender, offerToken := offerToken, offerAmount := offerAmount,
                wantToken := wantToken, wantAmount := wantAmount, filled := false })
            (w.orderIds_ ++ [evm.keccak256 offerToken offerAmount wantToken wantAmount])) := by
  simp [submitOrder, hoa, hwa, hfunded, hnomatch, hnodup]

/-- The transaction of `submitOrder` when nothing matches, with the chain it leaves. -/
theorem submitOrderTx_records (evm : Evm) (w : World) (maker offerToken : String)
    (offerAmount : ℕ) (wantToken : String) (wantAmount value fee : ℕ)
    (hpay : value + fee ≤ w.balance maker)
    (hmaker : maker ≠ evm.this)
    (hoa : 0 < offerAmount) (hwa : 0 < wantAmount)
    (hether : offerToken = etherAddress → value = offerAmount)
    (htoken : offerToken ≠ etherAddress →
      ∃ t, w.tokens offerToken = some t ∧ offerAmount ≤ t.balances_ maker)
    (hnomatch :
      (w.orderBook_ (evm.keccak256 wantToken wantAmount offerToken offerAmount)).active
        = false)
    (hnodup :
      (w.orderBook_ (evm.keccak256 offerToken offerAmount wantToken wantAmount)).active
        = false) :
    submitOrderTx evm maker value fee offerToken offerAmount wantToken wantAmount w
      = some ({ status := true, returned := true,
                logs := [ExchangeEvent.logOrderSubmitted maker offerToken offerAmount
                  wantToken wantAmount] },
              World.mk (((w.debit maker fee).debit maker value).credit evm.this value).balance
                w.tokens
                (Function.update w.orderBook_
                  (evm.keccak256 offerToken offerAmount wantToken wantAmount)
                  { maker := maker, offerToken := offerToken, offerAmount := offerAmount,
                    wantToken := wantToken, wantAmount := wantAmount, filled := false })
                (w.orderIds_ ++ [evm.keccak256 offerToken offerAmount wantToken wantAmount])) := by
  have hlt : ¬ (w.balance maker < value + fee) := by omega
  have hfunded : funded evm maker offerToken offerAmount
      (((w.debit maker fee).debit maker value).credit evm.this value) = true := by
    apply funded_of
    · intro h
      have := hether h
      simp [World.credit, World.debit, Function.update, hmaker, Ne.symm hmaker]
      omega
    · intro h
      exact htoken h
  have hrec := submitOrder_records evm
    (((w.debit maker fee).debit maker value).credit evm.this value)
    maker offerToken offerAmount wantToken wantAmount hoa hwa hfunded hnomatch hnodup
  unfold submitOrderTx
  simp only [hlt, if_false]
  rw [hrec]
  rfl

/-- The token's `transferFrom` does not fail when the recipient's balance leaves room. -/
theorem transferFrom_isSome (t : TokenState) (sender _from _to : String) (_amount : ℕ)
    (hroom : t.balances_ _to + _amount < 2 ^ 256) :
    ∃ r, t.transferFrom sender _from _to _amount = some r := by
  cases h : t.transferFrom sender _from _to _amount with
  | some r => exact ⟨r, rfl⟩
  | none =>
    exfalso
    unfold TokenState.transferFrom at h
    have hle : Function.update t.balances_ _from (t.balances_ _from - _amount) _to
        ≤ t.balances_ _to := by
      by_cases he : _to = _from
      · subst he
        simp
      · simp [Function.update, he]
    dsimp only at h
    split_ifs at h
    omega

/-- The token's `transferFrom` between two accounts, when balance and allowance
suffice: the amount leaves one balance and reaches the other. -/
theorem transferFrom_moves (t : TokenState) (sender _from _to : String) (_amount : ℕ)
    (hpos : 0 < _amount) (hbal : _amount ≤ t.balances_ _from)
    (hallowed : _amount ≤ t.allowed_ _from sender) (hne : _from ≠ _to)
    (hroom : t.balances_ _to + _amount < 2 ^ 256) :
    ∃ t' : TokenState, t.transferFrom sender _from _to _amount = some (t', true)
      ∧ t'.balances_ _from = t.balances_ _from - _amount
      ∧ t'.balances_ _to = t.balances_ _to + _amount
      ∧ ∀ other, other ≠ _from → other ≠ _to → t'.balances_ other = t.balances_ other := by
  have h2 : ¬ (_amount > t.balances_ _from) := by omega
  have h3 : ¬ (_amount > t.allowed_ _from sender) := by omega
  have hto : Function.update t.balances_ _from (t.balances_ _from - _amount) _to
      = t.balances_ _to := by
    simp [Function.update, Ne.symm hne]
  have heq : t.transferFrom sender _from _to _amount
      = some (TokenState.mk
          (Function.update (Function.update t.balances_ _from (t.balances_ _from - _amount))
            _to (t.balances_ _to + _amount))
          (Function.update t.allowed_ _from
            (Function.update (t.allowed_ _from) sender (t.allowed_ _from sender - _amount))),
          true) := by
    have h5 : ¬ (t.balances_ _to + _amount ≥ 2 ^ 256) := by omega
    unfold TokenState.transferFrom
    simp only [hpos, h2, h3, h5, gt_iff_lt, not_true_eq_false, if_false, hto]
  refine ⟨_, heq, ?_, ?_, ?_⟩
  · simp [Function.update, hne]
  · simp [Function.update, hne, Ne.symm hne]
  · intro other h1 h2
    simp [Function.update, h1, h2]


/-- The message call of `submitOrder` by a taker whose order is the flipped image of an
unfilled order that offers ether: the chain it leaves, given what the token's
`transferFrom` answers. -/
theorem submitOrder_executes (evm : Evm) (w : World) (maker taker wantToken : String)
    (offerAmount wantAmount : ℕ) (t t' : TokenState) (answer : Bool)
    (hoa : 0 < offerAmount) (hwa : 0 < wantAmount)
    (horder : w.orderBook_ (evm.keccak256 etherAddress offerAmount wantToken wantAmount)
      = { maker := maker, offerToken := etherAddress, offerAmount := offerAmount,
          wantToken := wantToken, wantAmount := wantAmount, filled := false })
    (hwt : wantToken ≠ etherAddress)
    (htok : w.tokens wantToken = some t)
    (hholds : wantAmount ≤ t.balances_ taker)
    (hescrow : offerAmount ≤ w.balance evm.this)
    (hmove : t.transferFrom evm.this taker maker wantAmount = some (t', answer)) :
    submitOrder evm taker wantToken wantAmount etherAddress offerAmount w
      = some (true,
          [ExchangeEvent.logOrderExecuted maker taker etherAddress offerAmount wantToken
            wantAmount],
          World.mk ((w.debit evm.this offerAmount).credit taker offerAmount).balance
            (Function.update w.tokens wantToken (some t'))
            (Function.update w.orderBook_
              (evm.keccak256 etherAddress offerAmount wantToken wantAmount)
              { maker := maker, offerToken := etherAddress, offerAmount := offerAmount,
                wantToken := wantToken, wantAmount := wantAmount, filled := true })
            w.orderIds_) := by
  have hfunded : funded evm taker wantToken wantAmount w = true :=
    funded_of evm w taker wantToken wantAmount (fun h => absurd h hwt)
      (fun _ => ⟨t, htok, hholds⟩)
  have hactive :
      (w.orderBook_ (evm.keccak256 etherAddress offerAmount wantToken wantAmount)).active
        = true := by
    rw [horder]
    simp [Order.active]
    omega
  have hnot : ¬ (w.balance evm.this < offerAmount) := by omega
  have hpos1 : wantAmount > 0 := hwa
  have hpos2 : offerAmount > 0 := hoa
  unfold submitOrder
  simp only [hpos1, hpos2, hfunded, hactive, not_true_eq_false, if_false, if_true]
  simp [executeOrder, horder, World.transfer, hnot, World.tokenTransferFrom, World.credit,
    World.debit, htok, hmove]


/-- The transaction of a taker whose order is the flipped image of an unfilled order
that offers ether, with the chain it leaves. -/
theorem submitOrderTx_executes (evm : Evm) (w : World) (maker taker wantToken : String)
    (offerAmount wantAmount fee : ℕ) (t t' : TokenState) (answer : Bool)
    (hfee : fee ≤ w.balance taker) (htaker : taker ≠ evm.this)
    (hoa : 0 < offerAmount) (hwa : 0 < wantAmount)
    (horder : w.orderBook_ (evm.keccak256 etherAddress offerAmount wantToken wantAmount)
      = { maker := maker, offerToken := etherAddress, offerAmount := offerAmount,
          wantToken := wantToken, wantAmount := wantAmount, filled := false })
    (hwt : wantToken ≠ etherAddress)
    (htok : w.tokens wantToken = some t)
    (hholds : wantAmount ≤ t.balances_ taker)
    (hescrow : offerAmount ≤ w.balance evm.this)
    (hmove : t.transferFrom evm.this taker maker wantAmount = some (t', answer)) :
    submitOrderTx evm taker 0 fee wantToken wantAmount etherAddress offerAmount w
      = some ({ status := true, returned := true,
                logs := [ExchangeEvent.logOrderExecuted maker taker etherAddress offerAmount
                  wantToken wantAmount] },
              World.mk
                (((((w.debit taker fee).debit taker 0).credit evm.this 0).debit evm.this
                  offerAmount).credit taker offerAmount).balance
                (Function.update w.tokens wantToken (some t'))
                (Function.update w.orderBook_
                  (evm.keccak256 etherAddress offerAmount wantToken wantAmount)
                  { maker := maker, offerToken := etherAddress, offerAmount := offerAmount,
                    wantToken := wantToken, wantAmount := wantAmount, filled := true })
                w.orderIds_) := by
  have hlt : ¬ (w.balance taker < 0 + fee) := by omega
  have hesc : offerAmount
      ≤ (((w.debit taker fee).debit taker 0).credit evm.this 0).balance evm.this := by
    simp [World.credit, World.debit, Function.update, htaker, Ne.symm htaker]
    exact hescrow
  have hexec := submitOrder_executes evm
    (((w.debit taker fee).debit taker 0).credit evm.this 0) maker taker wantToken
    offerAmount wantAmount t t' answer hoa hwa horder hwt htok hholds hesc hmove
  unfold submitOrderTx
  simp only [hlt, if_false]
  rw [hexec]
  rfl

/-- The token's `approve` for a positive amount that the sender holds: the allowance
grows by the amount and the balances stay. -/
theorem approve_grants (t : TokenState) (sender _spender : String) (_amount : ℕ)
    (hpos : 0 < _amount) (hbal : _amount ≤ t.balances_ sender)
    (hroom : t.allowed_ sender _spender + _amount < 2 ^ 256) :
    t.approve sender _spender _amount
      = some (TokenState.mk t.balances_
          (Function.update t.allowed_ sender
            (Function.update (t.allowed_ sender) _spender
              (t.allowed_ sender _spender + _amount))), true) := by
  have h2 : ¬ (_amount > t.balances_ sender) := by omega
  have h3 : ¬ (t.allowed_ sender _spender + _amount ≥ 2 ^ 256) := by omega
  unfold TokenState.approve
  simp only [hpos, h2, h3, gt_iff_lt, not_true_eq_false, if_false]

/-- C18: an order with positive offer and want amounts, submitted by a maker who sends
the offer amount as value when the offered token is ether and holds the offer
amount of the offered token otherwise, to an exchange whose book holds neither an
unfilled order with the flipped parameters nor an unfilled identical order:
`submitOrder` returns true, emits `logOrderSubmitted` as its only log and adds the
order to the book, so that on a fresh exchange `orderBook_[orderIds_(0)]` is
(maker, offerToken, offerAmount, wantToken, wantAmount, filled = false). -/
theorem submitOrder_adds_order (evm : Evm) (w : World) (maker offerToken : String)
    (offerAmount : ℕ) (wantToken : String) (wantAmount value fee : ℕ)
    (hpay : value + fee ≤ w.balance maker)
    (hmaker : maker ≠ evm.this)
    (hoa : 0 < offerAmount) (hwa : 0 < wantAmount)
    (hether : offerToken = etherAddress → value = offerAmount)
    (htoken : offerToken ≠ etherAddress →
      ∃ t, w.tokens offerToken = some t ∧ offerAmount ≤ t.balances_ maker)
    (hnomatch :
      (w.orderBook_ (evm.keccak256 wantToken wantAmount offerToken offerAmount)).active
        = false)
    (hnodup :
      (w.orderBook_ (evm.keccak256 offerToken offerAmount wantToken wantAmount)).active
        = false) :
    ∃ w' : World,
      submitOrderTx evm maker value fee offerToken offerAmount wantToken wantAmount w
        = some ({ status := true, returned := true,
                  logs := [ExchangeEvent.logOrderSubmitted maker offerToken offerAmount
                    wantToken wantAmount] }, w')
      ∧ w'.orderIds_
          = w.orderIds_ ++ [evm.keccak256 offerToken offerAmount wantToken wantAmount]
      ∧ w'.orderBook_ (evm.keccak256 offerToken offerAmount wantToken wantAmount)
          = { maker := maker, offerToken := offerToken, offerAmount := offerAmount,
              wantToken := wantToken, wantAmount := wantAmount, filled := false }
      ∧ (w.orderIds_ = [] →
          (w'.orderIdAt 0).map w'.orderBook_
            = some { maker := maker, offerToken := offerToken, offerAmount := offerAmount,
                     wantToken := wantToken, wantAmount := wantAmount, filled := false }) := by
  refine ⟨_, submitOrderTx_records evm w maker offerToken offerAmount wantToken wantAmount
    value fee hpay hmaker hoa hwa hether htoken hnomatch hnodup, rfl, ?_, ?_⟩
  · simp
  · intro hempty
    simp [World.orderIdAt, hempty]

theorem submitOrder_adds_order_witness :
    ∃ w' : World,
      submitOrderTx sampleEvm testMaker 1 21000 etherAddress 1 testToken 100
          (testWorld 100000 0)
        = some ({ status := true, returned := true,
                  logs := [ExchangeEvent.logOrderSubmitted testMaker etherAddress 1
                    testToken 100] }, w')
      ∧ w'.orderIds_
          = (testWorld 100000 0).orderIds_
              ++ [sampleEvm.keccak256 etherAddress 1 testToken 100]
      ∧ w'.orderBook_ (sampleEvm.keccak256 etherAddress 1 testToken 100)
          = { maker := testMaker, offerToken := etherAddress, offerAmount := 1,
              wantToken := testToken, wantAmount := 100, filled := false }
      ∧ ((testWorld 100000 0).orderIds_ = [] →
          (w'.orderIdAt 0).map w'.orderBook_
            = some { maker := testMaker, offerToken := etherAddress, offerAmount := 1,
                     wantToken := testToken, wantAmount := 100, filled := false }) :=
  submitOrder_adds_order sampleEvm (testWorld 100000 0) testMaker etherAddress 1 testToken
    100 1 21000 (by decide) (by decide) (by decide) (by decide) (fun _ => rfl)
    (fun h => absurd rfl h) (by decide) (by decide)

/-- C18, as stated, fails: on a fresh exchange an order that offers nothing, and an
order that offers tokens the maker does not hold, are both reverted and the book
stays empty; and an order identical to an unfilled order of the book, which no
order of the book matches, returns false with `LogErrorString` and is not added. -/
theorem submitOrder_reverts_unfunded :
    (submitOrderTx sampleEvm testMaker 0 21000 etherAddress 0 testToken 100
        (testWorld 100000 0)).map (fun r => (r.1, r.2.orderIds_))
      = some ({ status := false, returned := false, logs := [] }, [])
    ∧ (submitOrderTx sampleEvm testMaker 0 21000 testToken 5 etherAddress 1
        (testWorld 100000 0)).map (fun r => (r.1, r.2.orderIds_))
      = some ({ status := false, returned := false, logs := [] }, [])
    ∧ (submitOrderTx sampleEvm testMaker 10 21000 etherAddress 10 testToken 1
        (listedWorld 1 1 10 1)).map (fun r => (r.1, r.2.orderIds_.length))
      = some ({ status := true, returned := false,
                logs := [ExchangeEvent.LogErrorString
                  "Identical order is already active, Exchange.submitOrder()"] }, 1) := by
  refine ⟨?_, ?_, ?_⟩ <;> decide

/-- C19: the book holds a maker's unfilled order (ether, offerAmount, wantToken,
wantAmount) and the exchange holds the wei offered; a taker who holds wantAmount
of wantToken and has approved the exchange for it submits the flipped order:
`submitOrder` returns true, emits `logOrderExecuted` as its only log, and no
`logOrderSubmitted`, and marks the maker's order filled. -/
theorem submitOrder_executes_match (evm : Evm) (w : World) (maker taker wantToken : String)
    (offerAmount wantAmount fee : ℕ) (t : TokenState)
    (hfee : fee ≤ w.balance taker) (htaker : taker ≠ evm.this)
    (hoa : 0 < offerAmount) (hwa : 0 < wantAmount)
    (horder : w.orderBook_ (evm.keccak256 etherAddress offerAmount wantToken wantAmount)
      = { maker := maker, offerToken := etherAddress, offerAmount := offerAmount,
          wantToken := wantToken, wantAmount := wantAmount, filled := false })
    (hwt : wantToken ≠ etherAddress)
    (htok : w.tokens wantToken = some t)
    (_happroved : wantAmount ≤ t.allowed_ taker evm.this)
    (hholds : wantAmount ≤ t.balances_ taker)
    (hescrow : offerAmount ≤ w.balance evm.this)
    (hroom : t.balances_ maker + wantAmount < 2 ^ 256) :
    ∃ w' : World,
      submitOrderTx evm taker 0 fee wantToken wantAmount etherAddress offerAmount w
        = some ({ status := true, returned := true,
                  logs := [ExchangeEvent.logOrderExecuted maker taker etherAddress
                    offerAmount wantToken wantAmount] }, w')
      ∧ w'.orderBook_ (evm.keccak256 etherAddress offerAmount wantToken wantAmount)
          = { maker := maker, offerToken := etherAddress, offerAmount := offerAmount,
              wantToken := wantToken, wantAmount := wantAmount, filled := true }
      ∧ w'.orderIds_ = w.orderIds_
      ∧ (w.orderIdAt 0
            = some (evm.keccak256 etherAddress offerAmount wantToken wantAmount) →
          (w'.orderIdAt 0).map (fun id => (w'.orderBook_ id).filled) = some true) := by
  obtain ⟨⟨t', answer⟩, hmove⟩ :=
    transferFrom_isSome t evm.this taker maker wantAmount hroom
  refine ⟨_, submitOrderTx_executes evm w maker taker wantToken offerAmount wantAmount fee
    t t' answer hfee htaker hoa hwa horder hwt htok hholds hescrow hmove, ?_, rfl, ?_⟩
  · simp
  · intro hfirst
    simp only [World.orderIdAt] at hfirst
    simp only [World.orderIdAt, hfirst, Option.map_some', Function.update_same]

theorem submitOrder_executes_match_witness :
    ∃ w' : World,
      submitOrderTx sampleEvm testTaker 0 21000 testToken 1 etherAddress 10
          (listedWorld 1 1 10 1)
        = some ({ status := true, returned := true,
                  logs := [ExchangeEvent.logOrderExecuted testMaker testTaker etherAddress
                    10 testToken 1] }, w')
      ∧ w'.orderBook_ (sampleEvm.keccak256 etherAddress 10 testToken 1)
          = { maker := testMaker, offerToken := etherAddress, offerAmount := 10,
              wantToken := testToken, wantAmount := 1, filled := true }
      ∧ w'.orderIds_ = (listedWorld 1 1 10 1).orderIds_
      ∧ ((listedWorld 1 1 10 1).orderIdAt 0
            = some (sampleEvm.keccak256 etherAddress 10 testToken 1) →
          (w'.orderIdAt 0).map (fun id => (w'.orderBook_ id).filled) = some true) :=
  submitOrder_executes_match sampleEvm (listedWorld 1 1 10 1) testMaker testTaker testToken
    10 1 21000
    { balances_ := fun owner => if owner = testTaker then 1 else 0
      allowed_ := fun owner spender =>
        if owner = testTaker ∧ spender = exchangeAddress then 1 else 0 }
    (by decide) (by decide) (by decide) (by decide) (by decide) (by decide) rfl
    (by decide) (by decide) (by decide) (by decide)

/-- C19, as stated, fails. A taker who has approved the exchange for the want amount
but holds none of the token submits the flipped order: the transaction is
reverted and the maker's order stays unfilled. And when the maker lists a second
order offering ether without sending its value, which the exchange accepts while
it holds the value of the first, and the first is executed, the flipped image of
the second, submitted by a taker who holds and has approved the want amount, is
reverted too. -/
theorem submitOrder_reverts_without_tokens :
    ((listedWorld 0 1 10 1).tokens testToken).map
        (fun t => (t.allowed_ testTaker exchangeAddress, t.balances_ testTaker))
      = some (1, 0)
    ∧ (submitOrderTx sampleEvm testTaker 0 21000 testToken 1 etherAddress 10
        (listedWorld 0 1 10 1)).map
        (fun r => (r.1,
          (r.2.orderBook_ (sampleEvm.keccak256 etherAddress 10 testToken 1)).filled))
      = some ({ status := false, returned := false, logs := [] }, false)
    ∧ ((submitOrderTx sampleEvm testMaker 10 21000 etherAddress 10 testToken 1
          (testWorld 3 3)).bind fun r₁ =>
        (submitOrderTx sampleEvm testMaker 0 21000 etherAddress 10 testToken 2 r₁.2).bind
          fun r₂ =>
        (submitOrderTx sampleEvm testTaker 0 21000 testToken 1 etherAddress 10 r₂.2).bind
          fun r₃ =>
        (submitOrderTx sampleEvm testTaker 0 21000 testToken 2 etherAddress 10 r₃.2).map
          fun r₄ =>
            (r₁.1.returned, r₂.1.returned, r₃.1.returned,
             (r₃.2.orderBook_ (sampleEvm.keccak256 etherAddress 10 testToken 2)).active,
             (r₃.2.tokens testToken).map
               (fun t => (t.balances_ testTaker, t.allowed_ testTaker exchangeAddress)),
             r₃.2.balance exchangeAddress, r₄.1))
      = some (true, true, true, true, some (2, 2), 0,
              { status := false, returned := false, logs := [] }) := by
  refine ⟨by decide, by decide, ?_⟩
  rfl

/-- The transaction of `approve` for a positive amount that the sender holds, with the
chain it leaves. -/
theorem approveTx_grants (w : World) (token sender _spender : String) (fee _amount : ℕ)
    (t : TokenState) (hfee : fee ≤ w.balance sender) (htok : w.tokens token = some t)
    (hpos : 0 < _amount) (hbal : _amount ≤ t.balances_ sender)
    (hroom : t.allowed_ sender _spender + _amount < 2 ^ 256) :
    approveTx token sender fee _spender _amount w
      = some (World.mk (w.debit sender fee).balance
          (Function.update w.tokens token
            (some (TokenState.mk t.balances_
              (Function.update t.allowed_ sender
                (Function.update (t.allowed_ sender) _spender
                  (t.allowed_ sender _spender + _amount))))))
          w.orderBook_ w.orderIds_) := by
  have hlt : ¬ (w.balance sender < fee) := by omega
  have htok' : (w.debit sender fee).tokens token = some t := htok
  unfold approveTx
  simp only [hlt, if_false, htok', approve_grants t sender _spender _amount hpos hbal hroom]
  rfl


/-- The steps of the second test, with the chain they leave. -/
theorem executeOrderTest_result (evm : Evm) (w : World) (maker taker token : String)
    (offerAmount wantAmount makerFee approveFee takerFee : ℕ) (t : TokenState)
    (hmt : maker ≠ taker) (hmaker : maker ≠ evm.this) (htaker : taker ≠ evm.this)
    (hoa : 0 < offerAmount) (hwa : 0 < wantAmount)
    (hpayM : offerAmount + makerFee ≤ w.balance maker)
    (hpayT : approveFee + takerFee ≤ w.balance taker)
    (htoken : token ≠ etherAddress)
    (htok : w.tokens token = some t)
    (hholds : wantAmount ≤ t.balances_ taker)
    (hroomA : t.allowed_ taker evm.this + wantAmount < 2 ^ 256)
    (hroomB : t.balances_ maker + wantAmount < 2 ^ 256)
    (hnomatch :
      (w.orderBook_ (evm.keccak256 token wantAmount etherAddress offerAmount)).active = false)
    (hnodup :
      (w.orderBook_ (evm.keccak256 etherAddress offerAmount token wantAmount)).active = false) :
    ∃ (w' : World) (t' : TokenState),
      executeOrderTest evm maker taker token offerAmount wantAmount makerFee approveFee
          takerFee w
        = some ({ status := true, returned := true,
                  logs := [ExchangeEvent.logOrderExecuted maker taker etherAddress offerAmount
                    token wantAmount] }, w')
      ∧ w'.tokens token = some t'
      ∧ t'.balances_ taker = t.balances_ taker - wantAmount
      ∧ t'.balances_ maker = t.balances_ maker + wantAmount
      ∧ (∀ other, other ≠ taker → other ≠ maker → t'.balances_ other = t.balances_ other)
      ∧ w'.balance taker + (approveFee + takerFee) = w.balance taker + offerAmount
      ∧ w'.balance maker + (offerAmount + makerFee) = w.balance maker := by
  -- the maker's transaction
  obtain ⟨w₁, h1, e1tok, e1book, e1taker, e1maker, e1this⟩ :
      ∃ w₁ : World,
        submitOrderTx evm maker offerAmount makerFee etherAddress offerAmount token
            wantAmount w
          = some ({ status := true, returned := true,
                    logs := [ExchangeEvent.logOrderSubmitted maker etherAddress offerAmount
                      token wantAmount] }, w₁)
        ∧ w₁.tokens = w.tokens
        ∧ w₁.orderBook_ (evm.keccak256 etherAddress offerAmount token wantAmount)
            = { maker := maker, offerToken := etherAddress, offerAmount := offerAmount,
                wantToken := token, wantAmount := wantAmount, filled := false }
        ∧ w₁.balance taker = w.balance taker
        ∧ w₁.balance maker + (offerAmount + makerFee) = w.balance maker
        ∧ w₁.balance evm.this = w.balance evm.this + offerAmount := by
    refine ⟨_, submitOrderTx_records evm w maker etherAddress offerAmount token wantAmount
      offerAmount makerFee hpayM hmaker hoa hwa (fun _ => rfl) (fun h => absurd rfl h)
      hnomatch hnodup, rfl, ?_, ?_, ?_, ?_⟩
    · simp
    · simp [World.credit, World.debit, Function.update, Ne.symm hmt, htaker]
    · simp [World.credit, World.debit, Function.update, hmaker]
      omega
    · simp [World.credit, World.debit, Function.update, Ne.symm hmaker]
  -- the approval
  obtain ⟨w₂, t₂, h2, e2tok, e2bal, e2allowed, e2book, e2taker, e2maker, e2this⟩ :
      ∃ (w₂ : World) (t₂ : TokenState),
        approveTx token taker approveFee evm.this wantAmount w₁ = some w₂
        ∧ w₂.tokens token = some t₂
        ∧ t₂.balances_ = t.balances_
        ∧ wantAmount ≤ t₂.allowed_ taker evm.this
        ∧ w₂.orderBook_ = w₁.orderBook_
        ∧ w₂.balance taker + approveFee = w₁.balance taker
        ∧ w₂.balance maker = w₁.balance maker
        ∧ w₂.balance evm.this = w₁.balance evm.this := by
    refine ⟨_,
      TokenState.mk t.balances_
        (Function.update t.allowed_ taker
          (Function.update (t.allowed_ taker) evm.this
            (t.allowed_ taker evm.this + wantAmount))),
      approveTx_grants w₁ token taker evm.this approveFee wantAmount t
        (by omega) (by rw [e1tok]; exact htok) hwa hholds hroomA,
      ?_, rfl, ?_, rfl, ?_, ?_, ?_⟩
    · simp
    · simp
    · simp [World.debit, Function.update]
      omega
    · simp [World.debit, Function.update, hmt]
    · simp [World.debit, Function.update, Ne.symm htaker]
  -- the taker's transaction
  obtain ⟨t', hmove, hfrom, hto, hother⟩ := transferFrom_moves t₂ evm.this taker maker
    wantAmount hwa (by rw [e2bal]; exact hholds) e2allowed (Ne.symm hmt)
    (by rw [e2bal]; exact hroomB)
  obtain ⟨w₃, h3, e3tok, e3taker, e3maker⟩ :
      ∃ w₃ : World,
        submitOrderTx evm taker 0 takerFee token wantAmount etherAddress offerAmount w₂
          = some ({ status := true, returned := true,
                    logs := [ExchangeEvent.logOrderExecuted maker taker etherAddress
                      offerAmount token wantAmount] }, w₃)
        ∧ w₃.tokens token = some t'
        ∧ w₃.balance taker + takerFee = w₂.balance taker + offerAmount
        ∧ w₃.balance maker = w₂.balance maker := by
    refine ⟨_, submitOrderTx_executes evm w₂ maker taker token offerAmount wantAmount
      takerFee t₂ t' true (by omega) htaker hoa hwa (by rw [e2book]; exact e1book) htoken
      e2tok (by rw [e2bal]; exact hholds) (by omega) hmove, ?_, ?_, ?_⟩
    · simp
    · simp [World.credit, World.debit, Function.update, htaker, Ne.symm htaker]
      omega
    · simp [World.credit, World.debit, Function.update, hmt, hmaker]
  refine ⟨w₃, t', ?_, e3tok, ?_, ?_, ?_, ?_, ?_⟩
  · unfold executeOrderTest
    rw [h1]
    simp only [Option.some_bind]
    rw [h2]
    simp only [Option.some_bind]
    exact h3
  · rw [hfrom, e2bal]
  · rw [hto, e2bal]
  · intro other ho1 ho2
    rw [hother other ho1 ho2, e2bal]
  · omega
  · omega

/-- C20: executing a matched order trades the assets. When the maker has listed an
order offering ether, and the taker, who holds the want amount of the want token,
approves the exchange for it and submits the flipped order, exactly the want
amount of the token moves from the taker to the maker (in the test the maker ends
with the want amount and the taker with none). The taker's ether ends at its
start plus the offer amount less the gas fees of its two transactions, so above
its start exactly when the offer amount exceeds those fees; the maker's ether
ends at its start less the offer amount and the gas fee of its transaction, so
below its start less the offer amount exactly when that fee is positive. -/
theorem executeOrderTest_trades (evm : Evm) (w : World) (maker taker token : String)
    (offerAmount wantAmount makerFee approveFee takerFee : ℕ) (t : TokenState)
    (hmt : maker ≠ taker) (hmaker : maker ≠ evm.this) (htaker : taker ≠ evm.this)
    (hoa : 0 < offerAmount) (hwa : 0 < wantAmount)
    (hpayM : offerAmount + makerFee ≤ w.balance maker)
    (hpayT : approveFee + takerFee ≤ w.balance taker)
    (htoken : token ≠ etherAddress)
    (htok : w.tokens token = some t)
    (hholds : wantAmount ≤ t.balances_ taker)
    (hroomA : t.allowed_ taker evm.this + wantAmount < 2 ^ 256)
    (hroomB : t.balances_ maker + wantAmount < 2 ^ 256)
    (hnomatch :
      (w.orderBook_ (evm.keccak256 token wantAmount etherAddress offerAmount)).active = false)
    (hnodup :
      (w.orderBook_ (evm.keccak256 etherAddress offerAmount token wantAmount)).active = false) :
    ∃ (w' : World) (t' : TokenState),
      executeOrderTest evm maker taker token offerAmount wantAmount makerFee approveFee
          takerFee w
        = some ({ status := true, returned := true,
                  logs := [ExchangeEvent.logOrderExecuted maker taker etherAddress offerAmount
                    token wantAmount] }, w')
      ∧ w'.tokens token = some t'
      ∧ t'.balances_ taker = t.balances_ taker - wantAmount
      ∧ t'.balances_ maker = t.balances_ maker + wantAmount
      ∧ (∀ other, other ≠ taker → other ≠ maker → t'.balances_ other = t.balances_ other)
      ∧ (t.balances_ maker = 0 → t.balances_ taker = wantAmount →
          t'.balances_ maker = wantAmount ∧ t'.balances_ taker = 0)
      ∧ w'.balance taker + (approveFee + takerFee) = w.balance taker + offerAmount
      ∧ w'.balance maker + (offerAmount + makerFee) = w.balance maker
      ∧ (w.balance taker < w'.balance taker ↔ approveFee + takerFee < offerAmount)
      ∧ (w'.balance maker < w.balance maker - offerAmount ↔ 0 < makerFee) := by
  obtain ⟨w', t', hrun, htok', hfrom, hto, hother, htaker', hmaker'⟩ :=
    executeOrderTest_result evm w maker taker token offerAmount wantAmount makerFee
      approveFee takerFee t hmt hmaker htaker hoa hwa hpayM hpayT htoken htok hholds hroomA
      hroomB hnomatch hnodup
  refine ⟨w', t', hrun, htok', hfrom, hto, hother, ?_, htaker', hmaker', ?_, ?_⟩
  · intro h0 hall
    constructor
    · rw [hto, h0]
      omega
    · rw [hfrom, hall]
      omega
  · constructor <;> intro h <;> omega
  · constructor <;> intro h <;> omega

theorem executeOrderTest_trades_witness :
    ∃ (w' : World) (t' : TokenState),
      executeOrderTest sampleEvm testMaker testTaker testToken (10 ^ 19) 1 21000 21000 21000
          (testWorld 1 0)
        = some ({ status := true, returned := true,
                  logs := [ExchangeEvent.logOrderExecuted testMaker testTaker etherAddress
                    (10 ^ 19) testToken 1] }, w')
      ∧ w'.tokens testToken = some t'
      ∧ t'.balances_ testTaker = 1 - 1
      ∧ t'.balances_ testMaker = 0 + 1
      ∧ w'.balance testTaker + (21000 + 21000) = (testWorld 1 0).balance testTaker + 10 ^ 19
      ∧ w'.balance testMaker + (10 ^ 19 + 21000) = (testWorld 1 0).balance testMaker := by
  obtain ⟨w', t', h1, h2, h3, h4, _, _, h7, h8, _, _⟩ :=
    executeOrderTest_trades sampleEvm (testWorld 1 0) testMaker testTaker testToken (10 ^ 19)
      1 21000 21000 21000
      { balances_ := fun owner => if owner = testTaker then 1 else 0
        allowed_ := fun owner spender =>
          if owner = testTaker ∧ spender = exchangeAddress then 0 else 0 }
      (by decide) (by decide) (by decide) (by decide) (by decide) (by decide) (by decide)
      (by decide) rfl (by decide) (by decide) (by decide) (by decide) (by decide)
  exact ⟨w', t', h1, h2, h3, h4, h7, h8⟩

/-- C20, as stated, fails: the order of the first test, one wei for the token, is
listed and executed with a gas fee of 21000 wei for each transaction; the trade
is executed and the token moves, but the taker's ether ends below its start. -/
theorem executeOrderTest_taker_below_start :
    (testWorld 1 0).balance testTaker = 100000000000000000000
    ∧ (executeOrderTest sampleEvm testMaker testTaker testToken 1 1 21000 21000 21000
        (testWorld 1 0)).map
        (fun r => (r.1, r.2.balance testTaker,
          (r.2.tokens testToken).map (fun t => (t.balances_ testMaker, t.balances_ testTaker))))
      = some ({ status := true, returned := true,
                logs := [ExchangeEvent.logOrderExecuted testMaker testTaker etherAddress 1
                  testToken 1] },
              99999999999999958001, some (1, 0)) := by
  constructor <;> decide

/-! ## The amounts of the tests -/

/-- C21: the offer amount of the execution test, `1*10e18`, is `10^19` wei, which is
ten ether and not the one ether, `10^18` wei, that the comment beside it names:
divided by `10**18` as the page divides wei, it gives 10. -/
theorem executeOrderTestOfferAmount_is_ten_ether :
    executeOrderTestOfferAmount = 10 ^ 19
      ∧ executeOrderTestOfferAmount = 10 * weiPerEther
      ∧ executeOrderTestOfferAmount ≠ 1 * weiPerEther
      ∧ (executeOrderTestOfferAmount : ℚ) / 10 ^ 18 = 10
      ∧ exponentLiteral 1 18 = 1 * weiPerEther := by
  refine ⟨by decide, by decide, by decide, ?_, by decide⟩
  have h : executeOrderTestOfferAmount = 10 ^ 19 := by decide
  rw [h]
  norm_num

end EtherJs
